import Mathlib

/-!
# gcp-emulators-poc: storage and messaging walkthroughs

A shallow embedding of `gcs.go` and `pubsubemulator.go`.

Both programs are straight-line glue over a vendor SDK, so what there is to
verify is their control flow: which SDK calls are issued, in which order, with
which arguments, and what happens to the errors those calls return.

* The SDK (and the clock) is a record of state-passing operations over an
  arbitrary state type `σ`.  Quantifying over the record and over `σ` is
  quantifying over every possible outcome of every SDK call.
* Every Go function becomes a Lean function from the state to a `Ret`: the
  returned value, the events the call produced in chronological order (SDK calls
  with their results, output, sleeps), and the state afterwards.
* Heap objects of the SDK (writers, readers, iterators, publish results) are
  handles (`Nat`); their mutable state is part of `σ`.
* Go strings and byte slices are both byte sequences; a conversion between the
  two copies the bytes.  `Bytes` wraps the same representation as the string, and
  `bytesOf` / `stringOf` are the two conversions.
* `fmt.Printf` and `log.Printf` / `log.Fatalf` calls are recorded with their
  format string and arguments, not rendered.
-/

set_option autoImplicit false

namespace GcpEmulatorsPoc

/-! ## Go values -/

/-- A Go `error` value, identified by its message. -/
structure GoError where
  msg : String
  deriving DecidableEq, Repr

/-- The call `fmt.Errorf(text + "%v", err)`: every use in the repository has this
shape, a fixed text followed by the rendering of the wrapped error. -/
def errorf (text : String) (err : GoError) : GoError :=
  ⟨text ++ err.msg⟩

/-- A Go byte slice. -/
structure Bytes where
  data : String
  deriving DecidableEq, Repr

/-- The conversion `[]byte(s)`. -/
def bytesOf (s : String) : Bytes := ⟨s⟩

/-- The conversion `string(b)`. -/
def stringOf (b : Bytes) : String := b.data

/-- A `time.Time`, carried by its RFC 3339 rendering (the only use the programs
make of a time value). -/
structure GoTime where
  rfc3339 : String
  deriving DecidableEq, Repr

/-- The call `t.Format(time.RFC3339)`. -/
def GoTime.format (t : GoTime) : String := t.rfc3339

/-- A Go multiple return `(value, err)` with `err` either nil or not. -/
inductive Res (α : Type) where
  | ok (value : α)
  | fail (err : GoError)
  deriving DecidableEq, Repr

/-- An argument handed to a formatting call. -/
inductive Arg where
  | str (s : String)
  | int (n : Int)
  | err (e : GoError)
  | attrs (m : List (String × String))
  deriving DecidableEq, Repr

/-- What a run does, one event per effect, `κ` being the SDK calls of the
program at hand. -/
inductive Event (κ : Type) where
  /-- An SDK call, recorded with its arguments and its result. -/
  | sdk (call : κ)
  /-- The call `fmt.Printf(format, args...)`. -/
  | printf (format : String) (args : List Arg)
  /-- The call `fmt.Println(text)`. -/
  | println (text : String)
  /-- The call `log.Printf(format, args...)`: logs and carries on. -/
  | logPrintf (format : String) (args : List Arg)
  /-- The call `log.Fatalf(format, args...)`: logs and exits the process with status 1;
  nothing follows it, deferred calls included. -/
  | logFatalf (format : String) (args : List Arg)
  /-- The call `time.Sleep(seconds * time.Second)`. -/
  | sleep (seconds : Nat)
  /-- Marks that `main` calls the named function of the program. -/
  | enter (fn : String)
  /-- The named function returns `err` to `main`. -/
  | leave (fn : String) (err : Option GoError)
  /-- The call `wg.Add(n)`. -/
  | wgAdd (n : Nat)
  /-- The call `wg.Done()`. -/
  | wgDone
  /-- The statement `go func() ...`: the named goroutine is started. -/
  | spawn (fn : String)
  deriving DecidableEq, Repr

/-- Result of running a function: returned value, events in order, state. -/
structure Ret (κ σ α : Type) where
  val : α
  out : List (Event κ)
  st : σ

/-- Is the event a `log.Fatalf`? -/
def Event.isFatal {κ : Type} : Event κ → Bool
  | .logFatalf _ _ => true
  | _ => false

/-- The calls and returns of the program's own functions, as `main` saw them. -/
def returnsOf {κ : Type} : List (Event κ) → List (String × Option GoError)
  | [] => []
  | .leave fn err :: rest => (fn, err) :: returnsOf rest
  | _ :: rest => returnsOf rest

/-- The program's own functions that were entered, in order. -/
def entersOf {κ : Type} : List (Event κ) → List String
  | [] => []
  | .enter fn :: rest => fn :: entersOf rest
  | _ :: rest => entersOf rest

/-- An event of a function body: not a call marker of `main`, not a fatal
log. -/
def Event.isPlain {κ : Type} : Event κ → Bool
  | .enter _ => false
  | .leave _ _ => false
  | .logFatalf _ _ => false
  | _ => true

/-- The lines written to standard output, in order. -/
def printedOf {κ : Type} : List (Event κ) → List (Event κ)
  | [] => []
  | .printf f a :: rest => .printf f a :: printedOf rest
  | .println t :: rest => .println t :: printedOf rest
  | _ :: rest => printedOf rest

/-- Run a function of the program on behalf of `main`, recording the call and
what it returned. -/
def call {κ σ : Type} (fn : String) (r : Ret κ σ (Option GoError)) :
    Ret κ σ (Option GoError) :=
  ⟨r.val, [Event.enter fn] ++ r.out ++ [Event.leave fn r.val], r.st⟩

/-- The steps of a sequence up to and including the first that returned an
error; all of them when none did. -/
def throughFirstFailure : List (String × Option GoError) → List (String × Option GoError)
  | [] => []
  | (fn, none) :: rest => (fn, none) :: throughFirstFailure rest
  | (fn, some e) :: _ => [(fn, some e)]

/-! ## gcs.go -/

namespace Gcs

def bucketName : String := "test-bucket"
def gcsProjectID : String := "test-project"

/-- The fields of `storage.ObjectAttrs` that `listFiles` prints. -/
structure ObjectAttrs where
  name : String
  size : Int
  created : GoTime
  deriving DecidableEq, Repr

/-- What `it.Next()` returns: an object, or `iterator.Done`, or another error. -/
inductive NextResult where
  | object (attrs : ObjectAttrs)
  | done
  | error (err : GoError)
  deriving DecidableEq, Repr

/-- The storage SDK calls the program makes, each with arguments and result. -/
inductive StorageCall where
  | newClient (endpoint : String) (err : Option GoError)
  | clientClose
  | bucketAttrs (bucket : String) (err : Option GoError)
  | bucketCreate (bucket project : String) (err : Option GoError)
  | newWriter (bucket object : String) (w : Nat)
  | ioCopy (w : Nat) (content : Bytes) (err : Option GoError)
  | writerClose (w : Nat) (err : Option GoError)
  | bucketObjects (bucket : String) (it : Nat)
  | iterNext (it : Nat) (res : NextResult)
  | newReader (bucket object : String) (res : Res Nat)
  | readAll (r : Nat) (res : Res Bytes)
  | readerClose (r : Nat) (err : Option GoError)
  deriving DecidableEq, Repr

abbrev Ev := Event StorageCall

/-- The storage client library and the service behind it, over a state `σ`. -/
structure StorageSDK (σ : Type) where
  /-- The call `storage.NewClient(ctx, option.WithEndpoint(endpoint))`. -/
  newClient : String → σ → Option GoError × σ
  /-- The call `client.Close()`. -/
  clientClose : σ → σ
  /-- The call `bucket.Attrs(ctx)`: only the error is looked at. -/
  bucketAttrs : String → σ → Option GoError × σ
  /-- The call `bucket.Create(ctx, project, nil)`. -/
  bucketCreate : String → String → σ → Option GoError × σ
  /-- The call `bucket.Object(name).NewWriter(ctx)`. -/
  newWriter : String → String → σ → Nat × σ
  /-- The call `io.Copy(w, strings.NewReader(content))`: only the error is looked at. -/
  ioCopy : Nat → Bytes → σ → Option GoError × σ
  /-- The call `w.Close()`, which commits the object. -/
  writerClose : Nat → σ → Option GoError × σ
  /-- The call `bucket.Objects(ctx, nil)`. -/
  bucketObjects : String → σ → Nat × σ
  /-- The call `it.Next()`. -/
  iterNext : Nat → σ → NextResult × σ
  /-- The call `bucket.Object(name).NewReader(ctx)`. -/
  newReader : String → String → σ → Res Nat × σ
  /-- The call `io.ReadAll(r)`. -/
  readAll : Nat → σ → Res Bytes × σ
  /-- The call `r.Close()`. -/
  readerClose : Nat → σ → Option GoError × σ

variable {σ : Type}

def createBucketIfNotExists (sdk : StorageSDK σ) (s : σ) : Ret StorageCall σ (Option GoError) :=
  let a := sdk.bucketAttrs bucketName s
  match a.1 with
  | none =>
    ⟨none,
     [.sdk (.bucketAttrs bucketName none),
      .printf "Bucket '%s' already exists\n" [.str bucketName]],
     a.2⟩
  | some attrsErr =>
    let c := sdk.bucketCreate bucketName gcsProjectID a.2
    match c.1 with
    | some err =>
      ⟨some (errorf "failed to create bucket: " err),
       [.sdk (.bucketAttrs bucketName (some attrsErr)),
        .sdk (.bucketCreate bucketName gcsProjectID (some err))],
       c.2⟩
    | none =>
      ⟨none,
       [.sdk (.bucketAttrs bucketName (some attrsErr)),
        .sdk (.bucketCreate bucketName gcsProjectID none),
        .printf "Created bucket '%s'\n" [.str bucketName]],
       c.2⟩

/-- The body of `writeFile`.  `defer w.Close()` runs the Close on every return
path, after the return value is fixed, and drops what Close returns. -/
def writeFile (sdk : StorageSDK σ) (fileName content : String) (s : σ) :
    Ret StorageCall σ (Option GoError) :=
  let w := sdk.newWriter bucketName fileName s
  let c := sdk.ioCopy w.1 (bytesOf content) w.2
  match c.1 with
  | some err =>
    let d := sdk.writerClose w.1 c.2
    ⟨some (errorf "failed to write content: " err),
     [.sdk (.newWriter bucketName fileName w.1),
      .sdk (.ioCopy w.1 (bytesOf content) (some err)),
      .sdk (.writerClose w.1 d.1)],
     d.2⟩
  | none =>
    let d := sdk.writerClose w.1 c.2
    ⟨none,
     [.sdk (.newWriter bucketName fileName w.1),
      .sdk (.ioCopy w.1 (bytesOf content) none),
      .sdk (.writerClose w.1 d.1)],
     d.2⟩

/-- The line `listFiles` prints for one object. -/
def objectLine (obj : ObjectAttrs) : Ev :=
  .printf "- %s (size: %d bytes, created: %v)\n"
    [.str obj.name, .int obj.size, .str obj.created.format]

/-- The `for` loop of `listFiles`: one iteration per unit of fuel, `none` when
the fuel runs out before the iterator stops. -/
def listLoop (sdk : StorageSDK σ) (it : Nat) :
    Nat → σ → Option (Ret StorageCall σ (Option GoError))
  | 0, _ => none
  | fuel + 1, s =>
    let n := sdk.iterNext it s
    match n.1 with
    | .done => some ⟨none, [.sdk (.iterNext it .done)], n.2⟩
    | .error err =>
      some ⟨some (errorf "failed to iterate objects: " err),
            [.sdk (.iterNext it (.error err))], n.2⟩
    | .object obj =>
      match listLoop sdk it fuel n.2 with
      | none => none
      | some rest =>
        some ⟨rest.val, [.sdk (.iterNext it (.object obj)), objectLine obj] ++ rest.out,
              rest.st⟩

def listFiles (sdk : StorageSDK σ) (fuel : Nat) (s : σ) :
    Option (Ret StorageCall σ (Option GoError)) :=
  let o := sdk.bucketObjects bucketName s
  match listLoop sdk o.1 fuel o.2 with
  | none => none
  | some r => some ⟨r.val, [.sdk (.bucketObjects bucketName o.1)] ++ r.out, r.st⟩

/-- The body of `readFile`; `defer r.Close()` is registered only once the reader
exists. -/
def readFile (sdk : StorageSDK σ) (fileName : String) (s : σ) :
    Ret StorageCall σ (Option GoError) :=
  let n := sdk.newReader bucketName fileName s
  match n.1 with
  | .fail err =>
    ⟨some (errorf "failed to create reader: " err),
     [.sdk (.newReader bucketName fileName (.fail err))], n.2⟩
  | .ok r =>
    let a := sdk.readAll r n.2
    match a.1 with
    | .fail err =>
      let d := sdk.readerClose r a.2
      ⟨some (errorf "failed to read content: " err),
       [.sdk (.newReader bucketName fileName (.ok r)),
        .sdk (.readAll r (.fail err)),
        .sdk (.readerClose r d.1)],
       d.2⟩
    | .ok content =>
      let d := sdk.readerClose r a.2
      ⟨none,
       [.sdk (.newReader bucketName fileName (.ok r)),
        .sdk (.readAll r (.ok content)),
        .printf "Content: %s\n" [.str (stringOf content)],
        .sdk (.readerClose r d.1)],
       d.2⟩

def endpoint : String := "http://localhost:4443/storage/v1/"
def fileName : String := "test-file.txt"
def content : String := "Hello, this is a test file for GCS emulator!"

/-- The program `main` of `gcs.go`.  `fuel` bounds the iterations of the listing
loop; the result is `none` when the listing does not stop within it. -/
def main (sdk : StorageSDK σ) (fuel : Nat) (s : σ) : Option (Ret StorageCall σ Unit) :=
  let c := sdk.newClient endpoint s
  match c.1 with
  | some err =>
    some ⟨(), [.sdk (.newClient endpoint (some err)),
               .logFatalf "Failed to create storage client: %v" [.err err]], c.2⟩
  | none =>
    let t0 : List Ev := [.sdk (.newClient endpoint none)]
    let b := call "createBucketIfNotExists" (createBucketIfNotExists sdk c.2)
    match b.val with
    | some err =>
      some ⟨(), t0 ++ b.out ++ [.logFatalf "Failed to create bucket: %v" [.err err]], b.st⟩
    | none =>
      let w := call "writeFile" (writeFile sdk fileName content b.st)
      match w.val with
      | some err =>
        some ⟨(), t0 ++ b.out ++ w.out ++
                  [.logFatalf "Failed to write file: %v" [.err err]], w.st⟩
      | none =>
        let t1 : List Ev := t0 ++ b.out ++ w.out ++
          [.printf "Successfully wrote file '%s' to bucket '%s'\n" [.str fileName, .str bucketName],
           .println "\nListing files in bucket:",
           .enter "listFiles"]
        match listFiles sdk fuel w.st with
        | none => none
        | some l =>
          let t2 : List Ev := t1 ++ l.out ++ [.leave "listFiles" l.val]
          match l.val with
          | some err =>
            some ⟨(), t2 ++ [.logFatalf "Failed to list files: %v" [.err err]], l.st⟩
          | none =>
            let r := call "readFile" (readFile sdk fileName l.st)
            match r.val with
            | some err =>
              some ⟨(), t2 ++ [.printf "\nReading file '%s' content:\n" [.str fileName]] ++
                        r.out ++ [.logFatalf "Failed to read file: %v" [.err err]], r.st⟩
            | none =>
              some ⟨(), t2 ++ [.printf "\nReading file '%s' content:\n" [.str fileName]] ++
                        r.out ++ [.sdk .clientClose], sdk.clientClose r.st⟩

/-! ### An in-memory storage service -/

/-- A writer that has been opened and not yet committed. -/
structure OpenWriter where
  bucket : String
  object : String
  buf : String
  deriving DecidableEq, Repr

/-- An object as the service keeps it. -/
structure StoredObject where
  content : Bytes
  created : GoTime
  deriving DecidableEq, Repr

/-- State of the in-memory service: the set of bucket names, the map from
(bucket, object name) to content, the client-side objects handed out so far
(a handle is an index), the service clock, and faults to inject. -/
structure MemStore where
  buckets : List String
  objects : List ((String × String) × StoredObject)
  writers : List OpenWriter
  iters : List (List NextResult)
  readers : List Bytes
  clock : GoTime
  createFault : Option GoError
  closeFault : Option GoError
  deriving DecidableEq, Repr

/-- Bind `key` to `value`, replacing an earlier binding. -/
def putObject (key : String × String) (value : StoredObject)
    (m : List ((String × String) × StoredObject)) : List ((String × String) × StoredObject) :=
  (key, value) :: m.filter (fun kv => kv.1 ≠ key)

/-- The listing of a bucket: its objects, then `iterator.Done`. -/
def listingOf (bucket : String) (m : List ((String × String) × StoredObject)) :
    List NextResult :=
  (m.filter (fun kv => kv.1.1 = bucket)).map
    (fun kv => .object ⟨kv.1.2, kv.2.content.data.utf8ByteSize, kv.2.created⟩)

def notFound : GoError := ⟨"storage: bucket doesn't exist"⟩
def objectNotFound : GoError := ⟨"storage: object doesn't exist"⟩
def conflict : GoError := ⟨"googleapi: Error 409: bucket already exists"⟩
def badHandle : GoError := ⟨"invalid handle"⟩

/-- The in-memory storage service.  `Attrs` succeeds exactly for the buckets that
exist; `Create` adds a bucket that is not there (unless the fault is set); a
writer buffers what is copied into it and `Close` commits the buffer under the
object name (unless the fault is set or the bucket is missing); a reader returns
the committed content. -/
def memStorage : StorageSDK MemStore where
  newClient := fun _ s => (none, s)
  clientClose := fun s => s
  bucketAttrs := fun b s => (if b ∈ s.buckets then none else some notFound, s)
  bucketCreate := fun b _ s =>
    match s.createFault with
    | some e => (some e, s)
    | none =>
      if b ∈ s.buckets then (some conflict, s)
      else (none, { s with buckets := b :: s.buckets })
  newWriter := fun b o s =>
    (s.writers.length, { s with writers := s.writers ++ [⟨b, o, ""⟩] })
  ioCopy := fun w data s =>
    match s.writers[w]? with
    | none => (some badHandle, s)
    | some ow =>
      (none, { s with writers := s.writers.set w { ow with buf := ow.buf ++ data.data } })
  writerClose := fun w s =>
    match s.writers[w]? with
    | none => (some badHandle, s)
    | some ow =>
      match s.closeFault with
      | some e => (some e, s)
      | none =>
        if ow.bucket ∈ s.buckets then
          (none, { s with objects := putObject (ow.bucket, ow.object) ⟨⟨ow.buf⟩, s.clock⟩ s.objects })
        else (some notFound, s)
  bucketObjects := fun b s =>
    (s.iters.length,
     { s with iters := s.iters ++
        [if b ∈ s.buckets then listingOf b s.objects else [.error notFound]] })
  iterNext := fun it s =>
    match s.iters[it]? with
    | none => (.error badHandle, s)
    | some [] => (.done, s)
    | some (.error e :: _) => (.error e, s)
    | some (x :: rest) => (x, { s with iters := s.iters.set it rest })
  newReader := fun b o s =>
    if b ∈ s.buckets then
      match s.objects.lookup (b, o) with
      | some obj => (.ok s.readers.length, { s with readers := s.readers ++ [obj.content] })
      | none => (.fail objectNotFound, s)
    else (.fail notFound, s)
  readAll := fun r s =>
    match s.readers[r]? with
    | none => (.fail badHandle, s)
    | some c => (.ok c, { s with readers := s.readers.set r ⟨""⟩ })
  readerClose := fun _ s => (none, s)

/-- A fresh service with nothing in it. -/
def emptyStore : MemStore :=
  ⟨[], [], [], [], [], ⟨"2024-01-01T00:00:00Z"⟩, none, none⟩

/-! ### Observations on a run -/

/-- The first `n` results of `it.Next()` from state `s`. -/
def nextResults (sdk : StorageSDK σ) (it : Nat) : Nat → σ → List NextResult
  | 0, _ => []
  | n + 1, s => (sdk.iterNext it s).1 :: nextResults sdk it n (sdk.iterNext it s).2

/-- Does the iterator stop (with Done or an error) within `n` calls of
`it.Next()` from state `s`? -/
def iterStops (sdk : StorageSDK σ) (it : Nat) : Nat → σ → Bool
  | 0, _ => false
  | n + 1, s =>
    match (sdk.iterNext it s).1 with
    | .object _ => iterStops sdk it n (sdk.iterNext it s).2
    | _ => true

/-- The state in which `main` calls `createBucketIfNotExists`. -/
def afterClient (sdk : StorageSDK σ) (s : σ) : σ :=
  (sdk.newClient endpoint s).2

/-- The state in which `main` calls `writeFile`, when it gets there. -/
def afterBucket (sdk : StorageSDK σ) (s : σ) : σ :=
  (createBucketIfNotExists sdk (afterClient sdk s)).st

/-- The state in which `main` calls `listFiles`, when it gets there. -/
def afterWrite (sdk : StorageSDK σ) (s : σ) : σ :=
  (writeFile sdk fileName content (afterBucket sdk s)).st

/-- The iterator `listFiles` opens in `main`, and the state it starts in. -/
def listingStart (sdk : StorageSDK σ) (s : σ) : Nat × σ :=
  sdk.bucketObjects bucketName (afterWrite sdk s)

/-- Is the event a call of `bucket.Create`? -/
def isCreate : Ev → Bool
  | .sdk (.bucketCreate _ _ _) => true
  | _ => false

/-- Is the event a call of `bucket.Attrs` that returned an error? -/
def isFailedAttrs : Ev → Bool
  | .sdk (.bucketAttrs _ (some _)) => true
  | _ => false

/-- Is the event a call of `bucket.Create` that returned an error? -/
def isFailedCreate : Ev → Bool
  | .sdk (.bucketCreate _ _ (some _)) => true
  | _ => false

/-- An error from the transport. -/
def connectionReset : GoError := ⟨"connection reset by peer"⟩

/-- A fresh service on which the commit of an upload fails. -/
def closeFailing : MemStore :=
  { emptyStore with closeFault := some connectionReset }

/-- The events of a listing that goes through `objs`: for each object the
`it.Next()` that yielded it, then its line. -/
def listingEvents (it : Nat) : List ObjectAttrs → List Ev
  | [] => []
  | obj :: rest =>
    .sdk (.iterNext it (.object obj)) :: objectLine obj :: listingEvents it rest

/-- What `listFiles` returns when the iterator stops with `stop`. -/
def stopError : NextResult → Option GoError
  | .error err => some (errorf "failed to iterate objects: " err)
  | _ => none

/-- A service that is nothing but one iterator playing a script: each
`it.Next()` returns the next entry, and `iterator.Done` once the script is
over.  Every other call succeeds and changes nothing. -/
def scripted : StorageSDK (List NextResult) where
  newClient := fun _ s => (none, s)
  clientClose := fun s => s
  bucketAttrs := fun _ s => (none, s)
  bucketCreate := fun _ _ s => (none, s)
  newWriter := fun _ _ s => (0, s)
  ioCopy := fun _ _ s => (none, s)
  writerClose := fun _ s => (none, s)
  bucketObjects := fun _ s => (0, s)
  iterNext := fun _ s =>
    match s with
    | [] => (.done, [])
    | x :: rest => (x, rest)
  newReader := fun _ _ s => (.ok 0, s)
  readAll := fun _ s => (.ok ⟨""⟩, s)
  readerClose := fun _ s => (none, s)

def objectA : ObjectAttrs := ⟨"a.txt", 3, ⟨"2024-01-01T00:00:00Z"⟩⟩
def objectB : ObjectAttrs := ⟨"b.txt", 0, ⟨"2024-01-02T00:00:00Z"⟩⟩

/-- A service with the bucket in place and one object in it. -/
def oneObjectStore : MemStore :=
  { emptyStore with
    buckets := ["test-bucket"]
    objects := [(("test-bucket", "old.txt"), ⟨⟨"old"⟩, ⟨"2023-12-31T00:00:00Z"⟩⟩)] }

/-- A service with the bucket in place and nothing in it. -/
def emptyBucketStore : MemStore :=
  { emptyStore with buckets := ["test-bucket"] }

/-- A fresh service on which no bucket can be created. -/
def createFailing : MemStore :=
  { emptyStore with createFault := some connectionReset }

/-- The names of the four steps of `main`, in program order. -/
def stepNames : List String :=
  ["createBucketIfNotExists", "writeFile", "listFiles", "readFile"]

end Gcs

/-! ## pubsubemulator.go -/

namespace PubSubEmulator

def projectID : String := "test-project"
def topicName : String := "test-topic"
def subscriptionID : String := "test-subscription"
def endpoint : String := "localhost:8085"

/-- A `*pubsub.Topic` handle. -/
structure Topic where
  name : String
  deriving DecidableEq, Repr

/-- The call `client.Topic(name)`: builds a handle, talks to nobody. -/
def clientTopic (name : String) : Topic := ⟨name⟩

/-- The fields of `pubsub.Message` the program sets and reads.  A Go
`map[string]string` is kept as its list of entries. -/
structure Message where
  data : Bytes
  attributes : List (String × String)
  deriving DecidableEq, Repr

/-- One turn of a running `sub.Receive`: it hands a message to the callback, or
it returns. -/
inductive ReceiveStep where
  | deliver (msg : Message)
  | stop (err : Option GoError)
  deriving DecidableEq, Repr

/-- The messaging SDK calls (and the clock reads), with arguments and result. -/
inductive PubSubCall where
  | newClient (project endpoint : String) (err : Option GoError)
  | clientClose
  | topicExists (topic : Topic) (res : Res Bool)
  | createTopic (name : String) (res : Res Topic)
  | subscriptionExists (sub : String) (res : Res Bool)
  | createSubscription (sub : String) (topic : Topic) (err : Option GoError)
  | timeNow (t : GoTime)
  | publish (topic : Topic) (msg : Message) (result : Nat)
  | resultGet (result : Nat) (err : Option GoError)
  | receiveReturn (sub : String) (err : Option GoError)
  | ack (msg : Message)
  | nack (msg : Message)
  deriving DecidableEq, Repr

abbrev Ev := Event PubSubCall

/-- The messaging client library, the service behind it and the clock, over a
state `σ`. -/
structure PubSubSDK (σ : Type) where
  /-- The call `pubsub.NewClient(ctx, project, option.WithEndpoint(endpoint))`. -/
  newClient : String → String → σ → Option GoError × σ
  /-- The call `client.Close()`. -/
  clientClose : σ → σ
  /-- The call `topic.Exists(ctx)`. -/
  topicExists : Topic → σ → Res Bool × σ
  /-- The call `client.CreateTopic(ctx, name)`. -/
  createTopic : String → σ → Res Topic × σ
  /-- The call `client.Subscription(sub).Exists(ctx)`. -/
  subscriptionExists : String → σ → Res Bool × σ
  /-- The call `client.CreateSubscription(ctx, sub, pubsub.SubscriptionConfig with Topic)`:
  only the error is looked at. -/
  createSubscription : String → Topic → σ → Option GoError × σ
  /-- The call `time.Now()`. -/
  timeNow : σ → GoTime × σ
  /-- The call `topic.Publish(ctx, msg)`, which hands back a result to wait on. -/
  publish : Topic → Message → σ → Nat × σ
  /-- The call `result.Get(ctx)`: only the error is looked at. -/
  resultGet : Nat → σ → Option GoError × σ
  /-- What a running `client.Subscription(sub).Receive` does next. -/
  receiveStep : String → σ → ReceiveStep × σ
  /-- The call `msg.Ack()`. -/
  ack : Message → σ → σ
  /-- The call `time.Sleep(seconds * time.Second)`. -/
  sleep : Nat → σ → σ

variable {σ : Type}

/-- Lines 90 to 109 of `setupTopicAndSubscription`: the subscription half, run
with the topic handle the first half ended with. -/
def ensureSubscription (sdk : PubSubSDK σ) (topic : Topic) (s : σ) :
    Ret PubSubCall σ (Option GoError) :=
  let e := sdk.subscriptionExists subscriptionID s
  match e.1 with
  | .fail err =>
    ⟨some (errorf "failed to check if subscription exists: " err),
     [.sdk (.subscriptionExists subscriptionID (.fail err))], e.2⟩
  | .ok false =>
    let c := sdk.createSubscription subscriptionID topic e.2
    match c.1 with
    | some err =>
      ⟨some (errorf "failed to create subscription: " err),
       [.sdk (.subscriptionExists subscriptionID (.ok false)),
        .sdk (.createSubscription subscriptionID topic (some err))], c.2⟩
    | none =>
      ⟨none,
       [.sdk (.subscriptionExists subscriptionID (.ok false)),
        .sdk (.createSubscription subscriptionID topic none),
        .printf "Created subscription: %s\n" [.str subscriptionID]], c.2⟩
  | .ok true =>
    ⟨none,
     [.sdk (.subscriptionExists subscriptionID (.ok true)),
      .printf "Subscription '%s' already exists\n" [.str subscriptionID]], e.2⟩

def setupTopicAndSubscription (sdk : PubSubSDK σ) (s : σ) :
    Ret PubSubCall σ (Option GoError) :=
  let topic := clientTopic topicName
  let e := sdk.topicExists topic s
  match e.1 with
  | .fail err =>
    ⟨some (errorf "failed to check if topic exists: " err),
     [.sdk (.topicExists topic (.fail err))], e.2⟩
  | .ok false =>
    let c := sdk.createTopic topicName e.2
    match c.1 with
    | .fail err =>
      ⟨some (errorf "failed to create topic: " err),
       [.sdk (.topicExists topic (.ok false)),
        .sdk (.createTopic topicName (.fail err))], c.2⟩
    | .ok created =>
      let r := ensureSubscription sdk created c.2
      ⟨r.val,
       [.sdk (.topicExists topic (.ok false)),
        .sdk (.createTopic topicName (.ok created)),
        .printf "Created topic: %s\n" [.str topicName]] ++ r.out, r.st⟩
  | .ok true =>
    let r := ensureSubscription sdk topic e.2
    ⟨r.val,
     [.sdk (.topicExists topic (.ok true)),
      .printf "Topic '%s' already exists\n" [.str topicName]] ++ r.out, r.st⟩

def publishMessage (sdk : PubSubSDK σ) (message : String) (s : σ) :
    Ret PubSubCall σ (Option GoError) :=
  let topic := clientTopic topicName
  let t := sdk.timeNow s
  let msg : Message := ⟨bytesOf message, [("timestamp", t.1.format)]⟩
  let p := sdk.publish topic msg t.2
  let g := sdk.resultGet p.1 p.2
  ⟨g.1,
   [.sdk (.timeNow t.1), .sdk (.publish topic msg p.1), .sdk (.resultGet p.1 g.1)],
   g.2⟩

/-- The function literal handed to `sub.Receive`. -/
def receiveCallback (sdk : PubSubSDK σ) (msg : Message) (s : σ) : Ret PubSubCall σ Unit :=
  ⟨(),
   [Event.printf "Received message: %s\n" [.str (stringOf msg.data)]] ++
     (if msg.attributes.length > 0 then
        [Event.printf "  Attributes: %v\n" [.attrs msg.attributes]]
      else []) ++
     [Event.sdk (.ack msg)],
   sdk.ack msg s⟩

/-- The first `fuel` turns of a running `sub.Receive(ctx, receiveCallback)`.
The value is `some err` when Receive returned `err` within them, and `none`
when it is still receiving after them (with a background context it returns
only on an error, so this is the usual case).  Deliveries are taken one after
the other. -/
def receiveLoop (sdk : PubSubSDK σ) :
    Nat → σ → Ret PubSubCall σ (Option (Option GoError))
  | 0, s => ⟨none, [], s⟩
  | fuel + 1, s =>
    let n := sdk.receiveStep subscriptionID s
    match n.1 with
    | .stop err => ⟨some err, [.sdk (.receiveReturn subscriptionID err)], n.2⟩
    | .deliver msg =>
      let c := receiveCallback sdk msg n.2
      let rest := receiveLoop sdk fuel c.st
      ⟨rest.val, c.out ++ rest.out, rest.st⟩

/-- The first `fuel` turns of the Receive inside `subscribeMessages`; the value
is what `subscribeMessages` returned, if it has. -/
def subscribeMessages (sdk : PubSubSDK σ) (fuel : Nat) (s : σ) :
    Ret PubSubCall σ (Option (Option GoError)) :=
  let r := receiveLoop sdk fuel s
  ⟨r.val, [.println "Starting message subscriber..."] ++ r.out, r.st⟩

/-- The goroutine `main` starts, up to the first `fuel` turns of its Receive:
`subscribeMessages`, and once that has returned, a log line if it returned an
error, and the deferred `wg.Done()`.  The value tells whether the goroutine has
ended. -/
def subscriberGoroutine (sdk : PubSubSDK σ) (fuel : Nat) (s : σ) :
    Ret PubSubCall σ Bool :=
  let r := subscribeMessages sdk fuel s
  match r.val with
  | none => ⟨false, r.out, r.st⟩
  | some (some err) =>
    ⟨true, r.out ++ [.logPrintf "Failed to subscribe: %v" [.err err], .wgDone], r.st⟩
  | some none => ⟨true, r.out ++ [.wgDone], r.st⟩

def messages : List String :=
  ["Hello from Pub/Sub emulator!",
   "This is message number 2",
   "Testing Pub/Sub functionality",
   "Final test message"]

/-- The call `fmt.Sprintf("Message %d: %s", n, msg)`. -/
def sprintfMessage (n : Nat) (msg : String) : String :=
  "Message " ++ toString n ++ ": " ++ msg

/-- What the loop writes after publish number `n` returned `err`. -/
def publishReport (n : Nat) : Option GoError → Ev
  | some err => .logPrintf "Failed to publish message %d: %v" [.int n, .err err]
  | none => .printf "Published: Message %d\n" [.int n]

/-- The loop `for i, msg := range messages` of `main`, from index `i` on. -/
def publishLoop (sdk : PubSubSDK σ) : Nat → List String → σ → Ret PubSubCall σ Unit
  | _, [], s => ⟨(), [], s⟩
  | i, msg :: rest, s =>
    let p := call "publishMessage" (publishMessage sdk (sprintfMessage (i + 1) msg) s)
    let r := publishLoop sdk (i + 1) rest (sdk.sleep 1 p.st)
    ⟨(), p.out ++ [publishReport (i + 1) p.val, .sleep 1] ++ r.out, r.st⟩

/-- The main goroutine of `pubsubemulator.go`.  The subscriber goroutine it
starts is `subscriberGoroutine`; here it is the `spawn` event. -/
def main (sdk : PubSubSDK σ) (s : σ) : Ret PubSubCall σ Unit :=
  let c := sdk.newClient projectID endpoint s
  match c.1 with
  | some err =>
    ⟨(), [.sdk (.newClient projectID endpoint (some err)),
          .logFatalf "Failed to create pubsub client: %v" [.err err]], c.2⟩
  | none =>
    let u := call "setupTopicAndSubscription" (setupTopicAndSubscription sdk c.2)
    match u.val with
    | some err =>
      ⟨(), [.sdk (.newClient projectID endpoint none)] ++ u.out ++
           [.logFatalf "Failed to setup topic and subscription: %v" [.err err]], u.st⟩
    | none =>
      let p := publishLoop sdk 0 messages (sdk.sleep 2 u.st)
      ⟨(), [.sdk (.newClient projectID endpoint none)] ++ u.out ++
           [.wgAdd 1, .spawn "subscribeMessages", .sleep 2] ++ p.out ++
           [.sleep 5, .println "Demo completed!", .sdk .clientClose],
       sdk.clientClose (sdk.sleep 5 p.st)⟩

/-! ### An in-memory messaging service -/

/-- State of the in-memory service: the set of topics, the set of
subscriptions (each with its topic), what was published, what waits to be
delivered, what was acknowledged, the clock, and faults to inject. -/
structure MemPubSub where
  topics : List String
  subscriptions : List (String × String)
  published : List Message
  inbox : List Message
  acked : List Message
  clock : GoTime
  createTopicFault : Option GoError
  createSubscriptionFault : Option GoError
  getFaults : List (Nat × GoError)
  receiveFault : Option GoError
  deriving DecidableEq, Repr

def alreadyExists : GoError := ⟨"rpc error: code = AlreadyExists"⟩
def topicNotFound : GoError := ⟨"rpc error: code = NotFound"⟩

/-- The in-memory messaging service.  The two Exists calls answer truthfully and
never fail; a Create adds what is not there (unless its fault is set); the Get of
publish result `r` fails exactly when `getFaults` says so; Receive delivers the
inbox and then returns, or returns the injected error at once. -/
def memPubSub : PubSubSDK MemPubSub where
  newClient := fun _ _ s => (none, s)
  clientClose := fun s => s
  topicExists := fun t s => (.ok (decide (t.name ∈ s.topics)), s)
  createTopic := fun name s =>
    match s.createTopicFault with
    | some e => (.fail e, s)
    | none =>
      if name ∈ s.topics then (.fail alreadyExists, s)
      else (.ok ⟨name⟩, { s with topics := name :: s.topics })
  subscriptionExists := fun sub s =>
    (.ok (decide (sub ∈ s.subscriptions.map Prod.fst)), s)
  createSubscription := fun sub topic s =>
    match s.createSubscriptionFault with
    | some e => (some e, s)
    | none =>
      if sub ∈ s.subscriptions.map Prod.fst then (some alreadyExists, s)
      else if topic.name ∈ s.topics then
        (none, { s with subscriptions := (sub, topic.name) :: s.subscriptions })
      else (some topicNotFound, s)
  timeNow := fun s => (s.clock, s)
  publish := fun _ msg s =>
    (s.published.length, { s with published := s.published ++ [msg] })
  resultGet := fun r s => (s.getFaults.lookup r, s)
  receiveStep := fun _ s =>
    match s.receiveFault with
    | some e => (.stop (some e), s)
    | none =>
      match s.inbox with
      | [] => (.stop none, s)
      | m :: rest => (.deliver m, { s with inbox := rest })
  ack := fun msg s => { s with acked := s.acked ++ [msg] }
  sleep := fun _ s => s

/-- A fresh service with nothing in it. -/
def emptyPubSub : MemPubSub :=
  ⟨[], [], [], [], [], ⟨"2024-01-01T00:00:00Z"⟩, none, none, [], none⟩

/-! ### Observations on a run -/

/-- The messages handed to `topic.Publish`, in order. -/
def publishedOf : List Ev → List Message
  | [] => []
  | .sdk (.publish _ msg _) :: rest => msg :: publishedOf rest
  | _ :: rest => publishedOf rest

/-- Is the event a call of `client.CreateTopic`? -/
def isCreateTopic : Ev → Bool
  | .sdk (.createTopic _ _) => true
  | _ => false

/-- Is the event a call of `client.CreateSubscription`? -/
def isCreateSubscription : Ev → Bool
  | .sdk (.createSubscription _ _ _) => true
  | _ => false

/-- Is the event a call of `msg.Ack()`? -/
def isAck : Ev → Bool
  | .sdk (.ack _) => true
  | _ => false

/-- The messages acknowledged, in order. -/
def ackedOf : List Ev → List Message
  | [] => []
  | .sdk (.ack m) :: rest => m :: ackedOf rest
  | _ :: rest => ackedOf rest

/-- The messages the service hands to the callback in the first `n` turns of a
Receive started in state `s`, each acknowledged before the next turn. -/
def deliveredWithin (sdk : PubSubSDK σ) : Nat → σ → List Message
  | 0, _ => []
  | n + 1, s =>
    match (sdk.receiveStep subscriptionID s).1 with
    | .stop _ => []
    | .deliver msg =>
      msg :: deliveredWithin sdk n (sdk.ack msg (sdk.receiveStep subscriptionID s).2)

/-- Is the event a `result.Get` that returned an error? -/
def isFailedGet : Ev → Bool
  | .sdk (.resultGet _ (some _)) => true
  | _ => false

/-- Is the event a call of `msg.Nack()`? -/
def isNack : Ev → Bool
  | .sdk (.nack _) => true
  | _ => false

/-- The events of one turn of the publish loop: the call of `publishMessage`
for message number `n` with payload `payload`, in which the clock read `t`,
`Publish` handed back `r` and `r.Get` returned `e`; then the report and the
one-second sleep. -/
def publishRound (n : Nat) (payload : String) (t : GoTime) (r : Nat) (e : Option GoError) :
    List Ev :=
  [.enter "publishMessage",
   .sdk (.timeNow t),
   .sdk (.publish (clientTopic topicName) ⟨bytesOf payload, [("timestamp", t.format)]⟩ r),
   .sdk (.resultGet r e),
   .leave "publishMessage" e,
   publishReport n e,
   .sleep 1]

/-- The four payloads the loop builds, `fmt.Sprintf("Message %d: %s", i+1, msg)`
for the four fixed strings, written out. -/
def payloads : List String :=
  ["Message 1: Hello from Pub/Sub emulator!",
   "Message 2: This is message number 2",
   "Message 3: Testing Pub/Sub functionality",
   "Message 4: Final test message"]

/-- What `time.Now()` answers when a round starts in state `s`. -/
def roundClock (sdk : PubSubSDK σ) (s : σ) : GoTime :=
  (sdk.timeNow s).1

/-- The message a round starting in state `s` hands to Publish for `payload`:
the payload bytes and the one attribute, the clock reading under "timestamp". -/
def roundMessage (sdk : PubSubSDK σ) (payload : String) (s : σ) : Message :=
  ⟨bytesOf payload, [("timestamp", (roundClock sdk s).format)]⟩

/-- What `topic.Publish` answers in that round: the result handle and the state
after the call. -/
def roundPublish (sdk : PubSubSDK σ) (payload : String) (s : σ) : Nat × σ :=
  sdk.publish (clientTopic topicName) (roundMessage sdk payload s) (sdk.timeNow s).2

/-- What `result.Get` answers in that round: the error and the state after
the call. -/
def roundGet (sdk : PubSubSDK σ) (payload : String) (s : σ) : Option GoError × σ :=
  sdk.resultGet (roundPublish sdk payload s).1 (roundPublish sdk payload s).2

/-- The state a round leaves: after the clock read, the Publish, the Get and
the one-second sleep. -/
def roundEnd (sdk : PubSubSDK σ) (payload : String) (s : σ) : σ :=
  sdk.sleep 1 (roundGet sdk payload s).2

/-- The state in which `main` enters the publish loop, when it gets there:
after the client, the setup and the two-second sleep. -/
def loopStart (sdk : PubSubSDK σ) (s : σ) : σ :=
  sdk.sleep 2 (setupTopicAndSubscription sdk (sdk.newClient projectID endpoint s).2).st

/-- The state in which round `k + 1` of the loop starts. -/
def roundStart (sdk : PubSubSDK σ) (s : σ) : Nat → σ
  | 0 => loopStart sdk s
  | k + 1 => roundEnd sdk (payloads.getD k "") (roundStart sdk s k)

/-- An error from the service. -/
def unavailable : GoError := ⟨"rpc error: code = Unavailable"⟩

/-- A fresh service on which the confirmation of the first publish fails and
Receive returns an error. -/
def firstPublishFailing : MemPubSub :=
  { emptyPubSub with getFaults := [(0, unavailable)], receiveFault := some unavailable }

/-- A service with the topic and the subscription in place and two messages
waiting, one with a timestamp attribute and one without attributes. -/
def twoWaiting : MemPubSub :=
  { emptyPubSub with
    topics := ["test-topic"]
    subscriptions := [("test-subscription", "test-topic")]
    inbox := [⟨⟨"hello"⟩, [("timestamp", "2024-01-01T00:00:00Z")]⟩, ⟨⟨"bare"⟩, []⟩] }

end PubSubEmulator

end GcpEmulatorsPoc

/-! # Theorems -/

namespace GcpEmulatorsPoc

section Traces

variable {κ : Type}

theorem returnsOf_append (a b : List (Event κ)) :
    returnsOf (a ++ b) = returnsOf a ++ returnsOf b := by
  induction a with
  | nil => rfl
  | cons e rest ih => cases e <;> simp [returnsOf, ih]

theorem entersOf_append (a b : List (Event κ)) :
    entersOf (a ++ b) = entersOf a ++ entersOf b := by
  induction a with
  | nil => rfl
  | cons e rest ih => cases e <;> simp [entersOf, ih]

theorem printedOf_append (a b : List (Event κ)) :
    printedOf (a ++ b) = printedOf a ++ printedOf b := by
  induction a with
  | nil => rfl
  | cons e rest ih => cases e <;> simp [printedOf, ih]

theorem returnsOf_of_plain (a : List (Event κ)) (h : a.all Event.isPlain = true) :
    returnsOf a = [] := by
  induction a with
  | nil => rfl
  | cons e rest ih =>
    simp only [List.all_cons, Bool.and_eq_true] at h
    cases e <;> simp_all [returnsOf, Event.isPlain]

theorem entersOf_of_plain (a : List (Event κ)) (h : a.all Event.isPlain = true) :
    entersOf a = [] := by
  induction a with
  | nil => rfl
  | cons e rest ih =>
    simp only [List.all_cons, Bool.and_eq_true] at h
    cases e <;> simp_all [entersOf, Event.isPlain]

theorem not_fatal_of_plain (a : List (Event κ)) (h : a.all Event.isPlain = true) :
    a.any Event.isFatal = false := by
  induction a with
  | nil => rfl
  | cons e rest ih =>
    simp only [List.all_cons, Bool.and_eq_true] at h
    cases e <;> simp_all [Event.isFatal, Event.isPlain]

end Traces

namespace Gcs

variable {σ : Type}

/-- C10. `createBucketIfNotExists` takes every error of the Attrs lookup for
"no such bucket": whatever the SDK answers, the run starts with the Attrs call,
Create is called exactly when Attrs returned an error (of any kind), an error is
returned exactly when Attrs failed and Create then failed too, and a returned
error is the wrapped Create error, never the Attrs one. -/
theorem createBucketIfNotExists_create_iff_attrs_failed (sdk : StorageSDK σ) (s : σ) :
    (createBucketIfNotExists sdk s).out.head? =
        some (.sdk (.bucketAttrs bucketName (sdk.bucketAttrs bucketName s).1)) ∧
      ((createBucketIfNotExists sdk s).out.any isCreate = true ↔
        (sdk.bucketAttrs bucketName s).1 ≠ none) ∧
      ((createBucketIfNotExists sdk s).out.any isCreate = true ↔
        (createBucketIfNotExists sdk s).out.any isFailedAttrs = true) ∧
      ((createBucketIfNotExists sdk s).val ≠ none ↔
        (sdk.bucketAttrs bucketName s).1 ≠ none ∧
          (sdk.bucketCreate bucketName gcsProjectID (sdk.bucketAttrs bucketName s).2).1 ≠ none) ∧
      ((createBucketIfNotExists sdk s).val ≠ none ↔
        (createBucketIfNotExists sdk s).out.any isFailedAttrs = true ∧
          (createBucketIfNotExists sdk s).out.any isFailedCreate = true) ∧
      (∀ e, (createBucketIfNotExists sdk s).val = some e →
        ∃ ce, (sdk.bucketCreate bucketName gcsProjectID (sdk.bucketAttrs bucketName s).2).1 = some ce ∧
          e = errorf "failed to create bucket: " ce) := by
  cases ha : (sdk.bucketAttrs bucketName s).1 with
  | none => simp [createBucketIfNotExists, ha, isCreate, isFailedAttrs, isFailedCreate]
  | some ae =>
    cases hc : (sdk.bucketCreate bucketName gcsProjectID (sdk.bucketAttrs bucketName s).2).1 with
    | none => simp [createBucketIfNotExists, ha, hc, isCreate, isFailedAttrs, isFailedCreate]
    | some ce => simp [createBucketIfNotExists, ha, hc, isCreate, isFailedAttrs, isFailedCreate]

/-- What `writeFile` returns is decided by the copy alone: the result of the
deferred Close has no part in it. -/
theorem writeFile_val (sdk : StorageSDK σ) (f c : String) (s : σ) :
    (writeFile sdk f c s).val =
      ((sdk.ioCopy (sdk.newWriter bucketName f s).1 (bytesOf c)
          (sdk.newWriter bucketName f s).2).1).map (errorf "failed to write content: ") := by
  cases h : (sdk.ioCopy (sdk.newWriter bucketName f s).1 (bytesOf c)
      (sdk.newWriter bucketName f s).2).1 <;> simp [writeFile, h]

/-- C1, at the failing input.  On a service whose commit fails, the copy
succeeds, the Close returns an error, and `writeFile` still returns nil; `main`
then reports success and goes on to list and to read. -/
theorem writeFile_drops_close_error :
    (writeFile memStorage fileName content closeFailing).val = none ∧
      (writeFile memStorage fileName content closeFailing).out =
        [.sdk (.newWriter bucketName fileName 0),
         .sdk (.ioCopy 0 (bytesOf content) none),
         .sdk (.writerClose 0 (some connectionReset))] ∧
      (writeFile memStorage fileName content closeFailing).st.objects = [] ∧
      (main memStorage 8 closeFailing).map (fun r => entersOf r.out) = some stepNames ∧
      (main memStorage 8 closeFailing).map (fun r => printedOf r.out) =
        some [.printf "Created bucket '%s'\n" [.str bucketName],
              .printf "Successfully wrote file '%s' to bucket '%s'\n"
                [.str fileName, .str bucketName],
              .println "\nListing files in bucket:",
              .printf "\nReading file '%s' content:\n" [.str fileName]] := by
  decide

theorem createBucketIfNotExists_plain (sdk : StorageSDK σ) (s : σ) :
    (createBucketIfNotExists sdk s).out.all Event.isPlain = true := by
  simp only [createBucketIfNotExists]
  split
  · rfl
  · split <;> rfl

theorem writeFile_plain (sdk : StorageSDK σ) (f c : String) (s : σ) :
    (writeFile sdk f c s).out.all Event.isPlain = true := by
  simp only [writeFile]
  split <;> rfl

theorem readFile_plain (sdk : StorageSDK σ) (f : String) (s : σ) :
    (readFile sdk f s).out.all Event.isPlain = true := by
  simp only [readFile]
  split
  · rfl
  · split <;> rfl

theorem listLoop_plain (sdk : StorageSDK σ) (it : Nat) (fuel : Nat) :
    ∀ (s : σ) (r : Ret StorageCall σ (Option GoError)),
      listLoop sdk it fuel s = some r → r.out.all Event.isPlain = true := by
  induction fuel with
  | zero => intro s r h; simp [listLoop] at h
  | succ n ih =>
    intro s r h
    simp only [listLoop] at h
    split at h
    · cases h; rfl
    · cases h; rfl
    · split at h
      · cases h
      · rename_i rest hrest
        cases h
        have := ih _ _ hrest
        simpa [objectLine, Event.isPlain] using this

theorem listFiles_plain (sdk : StorageSDK σ) (fuel : Nat) (s : σ)
    (r : Ret StorageCall σ (Option GoError)) (h : listFiles sdk fuel s = some r) :
    r.out.all Event.isPlain = true := by
  simp only [listFiles] at h
  split at h
  · cases h
  · rename_i r0 h0
    cases h
    have := listLoop_plain sdk _ fuel _ _ h0
    simpa [Event.isPlain] using this

theorem listLoop_of_iterStops (sdk : StorageSDK σ) (it : Nat) (fuel : Nat) :
    ∀ s : σ, iterStops sdk it fuel s = true → ∃ r, listLoop sdk it fuel s = some r := by
  induction fuel with
  | zero => intro s h; simp [iterStops] at h
  | succ n ih =>
    intro s h
    simp only [iterStops] at h
    simp only [listLoop]
    cases hn : (sdk.iterNext it s).1 with
    | done => simp
    | error e => simp
    | object obj =>
      rw [hn] at h
      obtain ⟨rest, hrest⟩ := ih _ h
      simp [hrest]

/-- C3. Once the client exists, and provided the listing iterator stops within
the fuel, `main` returns, and the functions it called, with what each returned,
are, in program order, `createBucketIfNotExists`, `writeFile`, `listFiles`,
`readFile` up to and including the first one that returned an error (all four
when none did); each function entered also returned, and the run ends in a
fatal log exactly when one of them returned an error. -/
theorem main_runs_steps_through_first_failure (sdk : StorageSDK σ) (fuel : Nat) (s : σ)
    (hclient : (sdk.newClient endpoint s).1 = none)
    (hstop : iterStops sdk (listingStart sdk s).1 fuel (listingStart sdk s).2 = true) :
    ∃ l, listFiles sdk fuel (afterWrite sdk s) = some l ∧ ∃ r, main sdk fuel s = some r ∧
      returnsOf r.out = throughFirstFailure
        [("createBucketIfNotExists", (createBucketIfNotExists sdk (afterClient sdk s)).val),
         ("writeFile", (writeFile sdk fileName content (afterBucket sdk s)).val),
         ("listFiles", l.val),
         ("readFile", (readFile sdk fileName l.st).val)] ∧
      entersOf r.out = (returnsOf r.out).map Prod.fst ∧
      (r.out.any Event.isFatal = true ↔ ∃ fn e, (fn, some e) ∈ returnsOf r.out) := by
  simp only [listingStart, afterWrite, afterBucket, afterClient] at hstop ⊢
  obtain ⟨l0, hl0⟩ := listLoop_of_iterStops sdk _ fuel _ hstop
  have hl : listFiles sdk fuel (writeFile sdk fileName content
      (createBucketIfNotExists sdk (sdk.newClient endpoint s).2).st).st =
      some ⟨l0.val, [.sdk (.bucketObjects bucketName (sdk.bucketObjects bucketName
        (writeFile sdk fileName content
          (createBucketIfNotExists sdk (sdk.newClient endpoint s).2).st).st).1)] ++ l0.out,
        l0.st⟩ := by
    simp [listFiles, hl0]
  refine ⟨_, hl, ?_⟩
  have pb := createBucketIfNotExists_plain sdk (sdk.newClient endpoint s).2
  have rb := returnsOf_of_plain _ pb
  have eb := entersOf_of_plain _ pb
  have fb := not_fatal_of_plain _ pb
  have pw := writeFile_plain sdk fileName content
    (createBucketIfNotExists sdk (sdk.newClient endpoint s).2).st
  have rw := returnsOf_of_plain _ pw
  have ew := entersOf_of_plain _ pw
  have fw := not_fatal_of_plain _ pw
  have pl := listLoop_plain sdk _ fuel _ _ hl0
  have rl := returnsOf_of_plain _ pl
  have el := entersOf_of_plain _ pl
  have fl := not_fatal_of_plain _ pl
  have pr := readFile_plain sdk fileName l0.st
  have rr := returnsOf_of_plain _ pr
  have er := entersOf_of_plain _ pr
  have fr := not_fatal_of_plain _ pr
  cases h1 : (createBucketIfNotExists sdk (sdk.newClient endpoint s).2).val with
  | some err1 =>
    simp [main, hclient, call, h1, returnsOf_append, entersOf_append, rb, eb, fb,
      returnsOf, entersOf, throughFirstFailure, Event.isFatal,
      -List.any_eq_true, List.any_append, List.any_cons]
  | none =>
    cases h2 : (writeFile sdk fileName content
        (createBucketIfNotExists sdk (sdk.newClient endpoint s).2).st).val with
    | some err2 =>
      simp [main, hclient, call, h1, h2, returnsOf_append, entersOf_append, rb, eb, fb,
        rw, ew, fw, returnsOf, entersOf, throughFirstFailure, Event.isFatal,
        -List.any_eq_true, List.any_append, List.any_cons]
    | none =>
      cases h3 : l0.val with
      | some err3 =>
        simp [main, hclient, call, h1, h2, h3, hl, returnsOf_append, entersOf_append,
          rb, eb, fb, rw, ew, fw, rl, el, fl, returnsOf, entersOf, throughFirstFailure,
          Event.isFatal, -List.any_eq_true, List.any_append, List.any_cons]
      | none =>
        cases h4 : (readFile sdk fileName l0.st).val with
        | some err4 =>
          simp [main, hclient, call, h1, h2, h3, h4, hl, returnsOf_append, entersOf_append,
            rb, eb, fb, rw, ew, fw, rl, el, fl, rr, er, fr, returnsOf, entersOf,
            throughFirstFailure, Event.isFatal, -List.any_eq_true, List.any_append,
            List.any_cons]
        | none =>
          simp [main, hclient, call, h1, h2, h3, h4, hl, returnsOf_append, entersOf_append,
            rb, eb, fb, rw, ew, fw, rl, el, fl, rr, er, fr, returnsOf, entersOf,
            throughFirstFailure, Event.isFatal, -List.any_eq_true, List.any_append,
            List.any_cons]

/-- Witness of C3: a fresh in-memory service, where all four steps run; and
for comparison the run on a service that cannot create the bucket, which stops
after the first step. -/
theorem main_runs_steps_through_first_failure_witness :
    (memStorage.newClient endpoint emptyStore).1 = none ∧
      iterStops memStorage (listingStart memStorage emptyStore).1 8
        (listingStart memStorage emptyStore).2 = true ∧
      (∃ l, listFiles memStorage 8 (afterWrite memStorage emptyStore) = some l ∧
        ∃ r, main memStorage 8 emptyStore = some r ∧
        returnsOf r.out = throughFirstFailure
          [("createBucketIfNotExists",
            (createBucketIfNotExists memStorage (afterClient memStorage emptyStore)).val),
           ("writeFile",
            (writeFile memStorage fileName content (afterBucket memStorage emptyStore)).val),
           ("listFiles", l.val),
           ("readFile", (readFile memStorage fileName l.st).val)] ∧
        entersOf r.out = (returnsOf r.out).map Prod.fst ∧
        (r.out.any Event.isFatal = true ↔ ∃ fn e, (fn, some e) ∈ returnsOf r.out)) ∧
      (main memStorage 8 emptyStore).map (fun r => returnsOf r.out) =
        some [("createBucketIfNotExists", none), ("writeFile", none), ("listFiles", none),
              ("readFile", none)] ∧
      (main memStorage 8 createFailing).map (fun r => returnsOf r.out) =
        some [("createBucketIfNotExists",
               some (errorf "failed to create bucket: " connectionReset))] :=
  ⟨by decide, by decide,
   main_runs_steps_through_first_failure memStorage 8 emptyStore (by decide) (by decide),
   by decide, by decide⟩

theorem listLoop_follows_iterator (sdk : StorageSDK σ) (it : Nat) (stop : NextResult)
    (hstop : ∀ o, stop ≠ .object o) (objs : List ObjectAttrs) :
    ∀ (s : σ) (fuel : Nat),
      nextResults sdk it (objs.length + 1) s = objs.map .object ++ [stop] →
      objs.length < fuel →
      ∃ r, listLoop sdk it fuel s = some r ∧ r.val = stopError stop ∧
        r.out = listingEvents it objs ++ [.sdk (.iterNext it stop)] := by
  induction objs with
  | nil =>
    intro s fuel hnext hfuel
    obtain ⟨f, rfl⟩ : ∃ f, fuel = f + 1 := ⟨fuel - 1, by simp at hfuel; omega⟩
    simp [nextResults] at hnext
    cases stop with
    | object o => exact absurd rfl (hstop o)
    | done => simp [listLoop, hnext, stopError, listingEvents]
    | error e => simp [listLoop, hnext, stopError, listingEvents]
  | cons o os ih =>
    intro s fuel hnext hfuel
    obtain ⟨f, rfl⟩ : ∃ f, fuel = f + 1 := ⟨fuel - 1, by simp at hfuel; omega⟩
    simp only [List.length_cons, nextResults, List.map_cons, List.cons_append,
      List.cons.injEq] at hnext
    obtain ⟨hhead, htail⟩ := hnext
    have hlt : os.length < f := by simp at hfuel; omega
    obtain ⟨rest, hrest, hval, hout⟩ := ih _ f htail hlt
    simp [listLoop, hhead, hrest, hval, hout, listingEvents]

theorem printedOf_listingEvents (it : Nat) (objs : List ObjectAttrs) :
    printedOf (listingEvents it objs) = objs.map objectLine := by
  induction objs with
  | nil => rfl
  | cons o os ih => simp [listingEvents, printedOf, objectLine, ih]

/-- C8. Whenever the iterator of the bucket yields the objects `objs` and then
stops, with `iterator.Done` or with an error, `listFiles` returns (given fuel
for one turn per object and one more), having asked for each object in turn
and printed one line for it, in iterator order, with its name, size and
creation time, and nothing else; it returns nil after `iterator.Done` and the
wrapped error after an error.  With `objs` empty this is the listing of an
empty bucket: no line, no error. -/
theorem listFiles_lists_what_iterator_yields (sdk : StorageSDK σ) (s : σ)
    (objs : List ObjectAttrs) (stop : NextResult) (fuel : Nat)
    (hstop : ∀ o, stop ≠ .object o)
    (hnext : nextResults sdk (sdk.bucketObjects bucketName s).1 (objs.length + 1)
      (sdk.bucketObjects bucketName s).2 = objs.map .object ++ [stop])
    (hfuel : objs.length < fuel) :
    ∃ r, listFiles sdk fuel s = some r ∧
      r.val = stopError stop ∧
      r.out = [.sdk (.bucketObjects bucketName (sdk.bucketObjects bucketName s).1)] ++
        listingEvents (sdk.bucketObjects bucketName s).1 objs ++
        [.sdk (.iterNext (sdk.bucketObjects bucketName s).1 stop)] ∧
      printedOf r.out = objs.map (fun obj =>
        .printf "- %s (size: %d bytes, created: %v)\n"
          [.str obj.name, .int obj.size, .str obj.created.format]) := by
  obtain ⟨r0, hr0, hval, hout⟩ :=
    listLoop_follows_iterator sdk _ stop hstop objs _ fuel hnext hfuel
  refine ⟨⟨r0.val,
    [.sdk (.bucketObjects bucketName (sdk.bucketObjects bucketName s).1)] ++ r0.out, r0.st⟩,
    by simp only [listFiles, hr0], hval, by simp [hout], ?_⟩
  simp only [hout, printedOf_append, printedOf_listingEvents]
  simp [printedOf]
  intro a _
  rfl

/-- Witness of C8: the listing of an empty bucket of the in-memory service, an
iterator that yields two objects and is done, and one that yields one object
and then fails. -/
theorem listFiles_lists_what_iterator_yields_witness :
    (∃ r, listFiles memStorage 1 emptyBucketStore = some r ∧
      r.val = none ∧
      r.out = [.sdk (.bucketObjects bucketName 0)] ++ listingEvents 0 [] ++
        [.sdk (.iterNext 0 .done)] ∧
      printedOf r.out = []) ∧
    (∃ r, listFiles scripted 3 [.object objectA, .object objectB] = some r ∧
      r.val = none ∧
      r.out = [.sdk (.bucketObjects bucketName 0)] ++ listingEvents 0 [objectA, objectB] ++
        [.sdk (.iterNext 0 .done)] ∧
      printedOf r.out = [objectA, objectB].map (fun obj =>
        .printf "- %s (size: %d bytes, created: %v)\n"
          [.str obj.name, .int obj.size, .str obj.created.format])) ∧
    (∃ r, listFiles scripted 2 [.object objectA, .error connectionReset, .object objectB] =
        some r ∧
      r.val = some (errorf "failed to iterate objects: " connectionReset) ∧
      r.out = [.sdk (.bucketObjects bucketName 0)] ++ listingEvents 0 [objectA] ++
        [.sdk (.iterNext 0 (.error connectionReset))] ∧
      printedOf r.out = [objectA].map (fun obj =>
        .printf "- %s (size: %d bytes, created: %v)\n"
          [.str obj.name, .int obj.size, .str obj.created.format])) :=
  ⟨listFiles_lists_what_iterator_yields memStorage emptyBucketStore [] .done 1
      (by intro o h; cases h) (by decide) (by decide),
   listFiles_lists_what_iterator_yields scripted [.object objectA, .object objectB]
      [objectA, objectB] .done 3 (by intro o h; cases h) (by decide) (by decide),
   listFiles_lists_what_iterator_yields scripted
      [.object objectA, .error connectionReset, .object objectB]
      [objectA] (.error connectionReset) 2 (by intro o h; cases h) (by decide) (by decide)⟩

/-- C4. On the in-memory service, with the bucket in place and no fault set,
every SDK call of `writeFile f c` and of the `readFile f` after it succeeds; the
read obtains exactly the bytes of `c`, prints them after "Content: ", and both
functions return nil. -/
theorem writeFile_then_readFile_round_trip (s : MemStore) (f c : String)
    (hbucket : bucketName ∈ s.buckets) (hfault : s.closeFault = none) :
    (writeFile memStorage f c s).val = none ∧
      (writeFile memStorage f c s).out =
        [.sdk (.newWriter bucketName f s.writers.length),
         .sdk (.ioCopy s.writers.length (bytesOf c) none),
         .sdk (.writerClose s.writers.length none)] ∧
      (readFile memStorage f (writeFile memStorage f c s).st).val = none ∧
      (readFile memStorage f (writeFile memStorage f c s).st).out =
        [.sdk (.newReader bucketName f (.ok s.readers.length)),
         .sdk (.readAll s.readers.length (.ok (bytesOf c))),
         .printf "Content: %s\n" [.str c],
         .sdk (.readerClose s.readers.length none)] := by
  simp [writeFile, readFile, memStorage, hbucket, hfault, putObject, bytesOf, stringOf]

/-- Witness of C4: the program's own file and content, on a service that
already holds another object. -/
theorem writeFile_then_readFile_round_trip_witness :
    bucketName ∈ oneObjectStore.buckets ∧ oneObjectStore.closeFault = none ∧
      (writeFile memStorage fileName content oneObjectStore).val = none ∧
      (writeFile memStorage fileName content oneObjectStore).out =
        [.sdk (.newWriter bucketName fileName oneObjectStore.writers.length),
         .sdk (.ioCopy oneObjectStore.writers.length (bytesOf content) none),
         .sdk (.writerClose oneObjectStore.writers.length none)] ∧
      (readFile memStorage fileName
        (writeFile memStorage fileName content oneObjectStore).st).val = none ∧
      (readFile memStorage fileName
        (writeFile memStorage fileName content oneObjectStore).st).out =
        [.sdk (.newReader bucketName fileName (.ok oneObjectStore.readers.length)),
         .sdk (.readAll oneObjectStore.readers.length (.ok (bytesOf content))),
         .printf "Content: %s\n" [.str content],
         .sdk (.readerClose oneObjectStore.readers.length none)] :=
  ⟨by decide, rfl,
   writeFile_then_readFile_round_trip oneObjectStore fileName content (by decide) rfl⟩

/-- C5. On the in-memory service, whose Attrs succeeds exactly for the buckets
that exist: from any state (a set: no bucket listed twice) in which a first
`createBucketIfNotExists` returned nil, a second one issues no Create call,
returns nil, leaves the whole state as the first left it, and "test-bucket" is
among the buckets exactly once. -/
theorem createBucketIfNotExists_idempotent (s : MemStore) (hset : s.buckets.Nodup)
    (hfirst : (createBucketIfNotExists memStorage s).val = none) :
    (createBucketIfNotExists memStorage (createBucketIfNotExists memStorage s).st).out.any
        isCreate = false ∧
      (createBucketIfNotExists memStorage (createBucketIfNotExists memStorage s).st).val =
        none ∧
      (createBucketIfNotExists memStorage (createBucketIfNotExists memStorage s).st).st =
        (createBucketIfNotExists memStorage s).st ∧
      (createBucketIfNotExists memStorage s).st.buckets.count bucketName = 1 ∧
      (∀ (b : String) (s0 : MemStore),
        ((memStorage.bucketAttrs b s0).1 = none ↔ b ∈ s0.buckets) ∧
        (memStorage.bucketAttrs b s0).2 = s0) := by
  by_cases hmem : bucketName ∈ s.buckets
  · simp [createBucketIfNotExists, memStorage, hmem, isCreate,
      List.count_eq_one_of_mem hset hmem]
  · cases hf : s.createFault with
    | some e => simp [createBucketIfNotExists, memStorage, hmem, hf] at hfirst
    | none =>
      simp [createBucketIfNotExists, memStorage, hmem, hf, isCreate,
        List.count_eq_zero_of_not_mem hmem]

/-- Witness of C5: a fresh service, where the first call creates the bucket. -/
theorem createBucketIfNotExists_idempotent_witness :
    emptyStore.buckets.Nodup ∧ (createBucketIfNotExists memStorage emptyStore).val = none ∧
      (createBucketIfNotExists memStorage
        (createBucketIfNotExists memStorage emptyStore).st).out.any isCreate = false ∧
      (createBucketIfNotExists memStorage
        (createBucketIfNotExists memStorage emptyStore).st).val = none ∧
      (createBucketIfNotExists memStorage
        (createBucketIfNotExists memStorage emptyStore).st).st =
        (createBucketIfNotExists memStorage emptyStore).st ∧
      (createBucketIfNotExists memStorage emptyStore).st.buckets.count bucketName = 1 :=
  ⟨by decide, by decide,
   (createBucketIfNotExists_idempotent emptyStore (by decide) (by decide)).1,
   (createBucketIfNotExists_idempotent emptyStore (by decide) (by decide)).2.1,
   (createBucketIfNotExists_idempotent emptyStore (by decide) (by decide)).2.2.1,
   (createBucketIfNotExists_idempotent emptyStore (by decide) (by decide)).2.2.2.1⟩

end Gcs

namespace PubSubEmulator

variable {σ : Type}

theorem ensureSubscription_plain (sdk : PubSubSDK σ) (topic : Topic) (s : σ) :
    (ensureSubscription sdk topic s).out.all Event.isPlain = true := by
  simp only [ensureSubscription]
  split
  · rfl
  · split <;> rfl
  · rfl

theorem setupTopicAndSubscription_plain (sdk : PubSubSDK σ) (s : σ) :
    (setupTopicAndSubscription sdk s).out.all Event.isPlain = true := by
  simp only [setupTopicAndSubscription]
  split
  · rfl
  · split
    · rfl
    · simpa [Event.isPlain] using ensureSubscription_plain sdk _ _
  · simpa [Event.isPlain] using ensureSubscription_plain sdk _ _

theorem publishedOf_append (a b : List Ev) :
    publishedOf (a ++ b) = publishedOf a ++ publishedOf b := by
  induction a with
  | nil => rfl
  | cons e rest ih =>
    cases e with
    | sdk c => cases c <;> simp [publishedOf, ih]
    | _ => simp [publishedOf, ih]

theorem publishedOf_ensureSubscription (sdk : PubSubSDK σ) (topic : Topic) (s : σ) :
    publishedOf (ensureSubscription sdk topic s).out = [] := by
  simp only [ensureSubscription]
  split
  · rfl
  · split <;> rfl
  · rfl

theorem publishedOf_setup (sdk : PubSubSDK σ) (s : σ) :
    publishedOf (setupTopicAndSubscription sdk s).out = [] := by
  simp only [setupTopicAndSubscription]
  split
  · rfl
  · split
    · rfl
    · simp [publishedOf_append, publishedOf, publishedOf_ensureSubscription]
  · simp [publishedOf_append, publishedOf, publishedOf_ensureSubscription]

theorem ensureSubscription_no_failed_get (sdk : PubSubSDK σ) (topic : Topic) (s : σ) :
    (ensureSubscription sdk topic s).out.any isFailedGet = false := by
  simp only [ensureSubscription]
  split
  · rfl
  · split <;> rfl
  · rfl

theorem setupTopicAndSubscription_no_failed_get (sdk : PubSubSDK σ) (s : σ) :
    (setupTopicAndSubscription sdk s).out.any isFailedGet = false := by
  simp only [setupTopicAndSubscription]
  split
  · rfl
  · split
    · rfl
    · simpa [-List.any_eq_true, List.any_append, List.any_cons, isFailedGet] using
        ensureSubscription_no_failed_get sdk _ _
  · simpa [-List.any_eq_true, List.any_append, List.any_cons, isFailedGet] using
      ensureSubscription_no_failed_get sdk _ _

theorem publishedOf_publishReport (n : Nat) (e : Option GoError) (rest : List Ev) :
    publishedOf (publishReport n e :: rest) = publishedOf rest := by
  cases e <;> rfl

/-- The publish loop over the four fixed messages: four rounds, whatever the
SDK answers. -/
theorem publishLoop_messages (sdk : PubSubSDK σ) (s : σ) :
    ∃ t1 t2 t3 t4 r1 r2 r3 r4 e1 e2 e3 e4,
      (publishLoop sdk 0 messages s).out =
        publishRound 1 "Message 1: Hello from Pub/Sub emulator!" t1 r1 e1 ++
        publishRound 2 "Message 2: This is message number 2" t2 r2 e2 ++
        publishRound 3 "Message 3: Testing Pub/Sub functionality" t3 r3 e3 ++
        publishRound 4 "Message 4: Final test message" t4 r4 e4 :=
  ⟨_, _, _, _, _, _, _, _, _, _, _, _, rfl⟩

/-- The whole run of `main` once the client and the setup succeeded: the
subscriber is started, then four publish rounds whatever their results, then
the closing lines. -/
theorem main_rounds (sdk : PubSubSDK σ) (s : σ)
    (hclient : (sdk.newClient projectID endpoint s).1 = none)
    (hsetup : (setupTopicAndSubscription sdk (sdk.newClient projectID endpoint s).2).val =
      none) :
    ∃ t1 t2 t3 t4 r1 r2 r3 r4 e1 e2 e3 e4,
      (main sdk s).out =
        [.sdk (.newClient projectID endpoint none), .enter "setupTopicAndSubscription"] ++
        (setupTopicAndSubscription sdk (sdk.newClient projectID endpoint s).2).out ++
        [.leave "setupTopicAndSubscription" none,
         .wgAdd 1, .spawn "subscribeMessages", .sleep 2] ++
        (publishRound 1 "Message 1: Hello from Pub/Sub emulator!" t1 r1 e1 ++
         publishRound 2 "Message 2: This is message number 2" t2 r2 e2 ++
         publishRound 3 "Message 3: Testing Pub/Sub functionality" t3 r3 e3 ++
         publishRound 4 "Message 4: Final test message" t4 r4 e4) ++
        [.sleep 5, .println "Demo completed!", .sdk .clientClose] := by
  obtain ⟨t1, t2, t3, t4, r1, r2, r3, r4, e1, e2, e3, e4, h⟩ :=
    publishLoop_messages sdk
      (sdk.sleep 2 (setupTopicAndSubscription sdk (sdk.newClient projectID endpoint s).2).st)
  refine ⟨t1, t2, t3, t4, r1, r2, r3, r4, e1, e2, e3, e4, ?_⟩
  simp only [main, hclient, call, hsetup, h]
  simp

/-- The publish loop over the four fixed messages, from any state: its events
and its final state, each read off the SDK calls of the four rounds. -/
theorem publishLoop_rounds (sdk : PubSubSDK σ) (s : σ) :
    publishLoop sdk 0 messages (loopStart sdk s) =
      ⟨(),
       publishRound 1 "Message 1: Hello from Pub/Sub emulator!"
          (roundClock sdk (roundStart sdk s 0))
          (roundPublish sdk "Message 1: Hello from Pub/Sub emulator!" (roundStart sdk s 0)).1
          (roundGet sdk "Message 1: Hello from Pub/Sub emulator!" (roundStart sdk s 0)).1 ++
        (publishRound 2 "Message 2: This is message number 2"
          (roundClock sdk (roundStart sdk s 1))
          (roundPublish sdk "Message 2: This is message number 2" (roundStart sdk s 1)).1
          (roundGet sdk "Message 2: This is message number 2" (roundStart sdk s 1)).1 ++
        (publishRound 3 "Message 3: Testing Pub/Sub functionality"
          (roundClock sdk (roundStart sdk s 2))
          (roundPublish sdk "Message 3: Testing Pub/Sub functionality" (roundStart sdk s 2)).1
          (roundGet sdk "Message 3: Testing Pub/Sub functionality" (roundStart sdk s 2)).1 ++
        (publishRound 4 "Message 4: Final test message"
          (roundClock sdk (roundStart sdk s 3))
          (roundPublish sdk "Message 4: Final test message" (roundStart sdk s 3)).1
          (roundGet sdk "Message 4: Final test message" (roundStart sdk s 3)).1 ++ []))),
       roundStart sdk s 4⟩ :=
  rfl

/-- C7. When the client and the setup succeeded and the `result.Get` of each of
the four rounds returns nil, `main` goes through exactly four publish rounds,
in order 1, 2, 3, 4, each on the state the one before left.  In round i it
reads the clock (`sdk.timeNow`), hands to `sdk.publish` the message with the
payload "Message i: " followed by the i-th fixed string and the single
attribute "timestamp" set to that reading, calls `sdk.resultGet` on the handle
Publish gave back, reports, and sleeps one second, all before round i+1
starts.  The messages handed to Publish are these four, and the state `main`
ends in is the one the four rounds, the five-second sleep and the closing of
the client produce. -/
theorem main_publishes_four_in_order (sdk : PubSubSDK σ) (s : σ)
    (hclient : (sdk.newClient projectID endpoint s).1 = none)
    (hsetup : (setupTopicAndSubscription sdk (sdk.newClient projectID endpoint s).2).val =
      none)
    (hget : ∀ k, k < 4 → (roundGet sdk (payloads.getD k "") (roundStart sdk s k)).1 = none) :
    (main sdk s).out =
        [.sdk (.newClient projectID endpoint none), .enter "setupTopicAndSubscription"] ++
        (setupTopicAndSubscription sdk (sdk.newClient projectID endpoint s).2).out ++
        [.leave "setupTopicAndSubscription" none,
         .wgAdd 1, .spawn "subscribeMessages", .sleep 2] ++
        (publishRound 1 "Message 1: Hello from Pub/Sub emulator!"
            (sdk.timeNow (roundStart sdk s 0)).1
            (sdk.publish (clientTopic topicName)
              ⟨bytesOf "Message 1: Hello from Pub/Sub emulator!",
               [("timestamp", (sdk.timeNow (roundStart sdk s 0)).1.format)]⟩
              (sdk.timeNow (roundStart sdk s 0)).2).1 none ++
         publishRound 2 "Message 2: This is message number 2"
            (sdk.timeNow (roundStart sdk s 1)).1
            (sdk.publish (clientTopic topicName)
              ⟨bytesOf "Message 2: This is message number 2",
               [("timestamp", (sdk.timeNow (roundStart sdk s 1)).1.format)]⟩
              (sdk.timeNow (roundStart sdk s 1)).2).1 none ++
         publishRound 3 "Message 3: Testing Pub/Sub functionality"
            (sdk.timeNow (roundStart sdk s 2)).1
            (sdk.publish (clientTopic topicName)
              ⟨bytesOf "Message 3: Testing Pub/Sub functionality",
               [("timestamp", (sdk.timeNow (roundStart sdk s 2)).1.format)]⟩
              (sdk.timeNow (roundStart sdk s 2)).2).1 none ++
         publishRound 4 "Message 4: Final test message"
            (sdk.timeNow (roundStart sdk s 3)).1
            (sdk.publish (clientTopic topicName)
              ⟨bytesOf "Message 4: Final test message",
               [("timestamp", (sdk.timeNow (roundStart sdk s 3)).1.format)]⟩
              (sdk.timeNow (roundStart sdk s 3)).2).1 none) ++
        [.sleep 5, .println "Demo completed!", .sdk .clientClose] ∧
      (main sdk s).st = sdk.clientClose (sdk.sleep 5 (roundStart sdk s 4)) ∧
      publishedOf (main sdk s).out =
        [⟨bytesOf "Message 1: Hello from Pub/Sub emulator!",
          [("timestamp", (sdk.timeNow (roundStart sdk s 0)).1.format)]⟩,
         ⟨bytesOf "Message 2: This is message number 2",
          [("timestamp", (sdk.timeNow (roundStart sdk s 1)).1.format)]⟩,
         ⟨bytesOf "Message 3: Testing Pub/Sub functionality",
          [("timestamp", (sdk.timeNow (roundStart sdk s 2)).1.format)]⟩,
         ⟨bytesOf "Message 4: Final test message",
          [("timestamp", (sdk.timeNow (roundStart sdk s 3)).1.format)]⟩] ∧
      (∀ m ∈ publishedOf (main sdk s).out, m.attributes.map Prod.fst = ["timestamp"]) ∧
      (main sdk s).out.any isFailedGet = false := by
  have h0 := hget 0 (by decide)
  have h1 := hget 1 (by decide)
  have h2 := hget 2 (by decide)
  have h3 := hget 3 (by decide)
  simp only [payloads, List.getD_cons_zero, List.getD_cons_succ] at h0 h1 h2 h3
  have hloop := publishLoop_rounds sdk s
  rw [h0, h1, h2, h3] at hloop
  have hmain : main sdk s =
      ⟨(), [.sdk (.newClient projectID endpoint none)] ++
           (call "setupTopicAndSubscription"
              (setupTopicAndSubscription sdk (sdk.newClient projectID endpoint s).2)).out ++
           [.wgAdd 1, .spawn "subscribeMessages", .sleep 2] ++
           (publishLoop sdk 0 messages (loopStart sdk s)).out ++
           [.sleep 5, .println "Demo completed!", .sdk .clientClose],
       sdk.clientClose (sdk.sleep 5 (publishLoop sdk 0 messages (loopStart sdk s)).st)⟩ := by
    simp only [main, hclient, call, hsetup, loopStart]
  have fs := not_fatal_of_plain _
    (setupTopicAndSubscription_plain sdk (sdk.newClient projectID endpoint s).2)
  have hout : (main sdk s).out =
      [.sdk (.newClient projectID endpoint none), .enter "setupTopicAndSubscription"] ++
      (setupTopicAndSubscription sdk (sdk.newClient projectID endpoint s).2).out ++
      [.leave "setupTopicAndSubscription" none,
       .wgAdd 1, .spawn "subscribeMessages", .sleep 2] ++
      (publishRound 1 "Message 1: Hello from Pub/Sub emulator!"
          (sdk.timeNow (roundStart sdk s 0)).1
          (sdk.publish (clientTopic topicName)
            ⟨bytesOf "Message 1: Hello from Pub/Sub emulator!",
             [("timestamp", (sdk.timeNow (roundStart sdk s 0)).1.format)]⟩
            (sdk.timeNow (roundStart sdk s 0)).2).1 none ++
       publishRound 2 "Message 2: This is message number 2"
          (sdk.timeNow (roundStart sdk s 1)).1
          (sdk.publish (clientTopic topicName)
            ⟨bytesOf "Message 2: This is message number 2",
             [("timestamp", (sdk.timeNow (roundStart sdk s 1)).1.format)]⟩
            (sdk.timeNow (roundStart sdk s 1)).2).1 none ++
       publishRound 3 "Message 3: Testing Pub/Sub functionality"
          (sdk.timeNow (roundStart sdk s 2)).1
          (sdk.publish (clientTopic topicName)
            ⟨bytesOf "Message 3: Testing Pub/Sub functionality",
             [("timestamp", (sdk.timeNow (roundStart sdk s 2)).1.format)]⟩
            (sdk.timeNow (roundStart sdk s 2)).2).1 none ++
       publishRound 4 "Message 4: Final test message"
          (sdk.timeNow (roundStart sdk s 3)).1
          (sdk.publish (clientTopic topicName)
            ⟨bytesOf "Message 4: Final test message",
             [("timestamp", (sdk.timeNow (roundStart sdk s 3)).1.format)]⟩
            (sdk.timeNow (roundStart sdk s 3)).2).1 none) ++
      [.sleep 5, .println "Demo completed!", .sdk .clientClose] := by
    rw [hmain, hloop]
    simp [call, hsetup, roundClock, roundPublish, roundMessage]
  have hp : publishedOf (main sdk s).out =
      [⟨bytesOf "Message 1: Hello from Pub/Sub emulator!",
        [("timestamp", (sdk.timeNow (roundStart sdk s 0)).1.format)]⟩,
       ⟨bytesOf "Message 2: This is message number 2",
        [("timestamp", (sdk.timeNow (roundStart sdk s 1)).1.format)]⟩,
       ⟨bytesOf "Message 3: Testing Pub/Sub functionality",
        [("timestamp", (sdk.timeNow (roundStart sdk s 2)).1.format)]⟩,
       ⟨bytesOf "Message 4: Final test message",
        [("timestamp", (sdk.timeNow (roundStart sdk s 3)).1.format)]⟩] := by
    rw [hout]
    simp [publishedOf_append, publishedOf_setup, publishedOf, publishRound]
  refine ⟨hout, ?_, hp, ?_, ?_⟩
  · rw [hmain, hloop]
  · rw [hp]
    simp
  · rw [hout]
    have gs : (setupTopicAndSubscription sdk
        (sdk.newClient projectID endpoint s).2).out.any isFailedGet = false :=
      setupTopicAndSubscription_no_failed_get sdk _
    simp [-List.any_eq_true, List.any_append, List.any_cons, gs, publishRound,
      publishReport, isFailedGet]

/-- Witness of C7: a fresh in-memory service, on which every publish is
confirmed; the service ends up holding the four messages. -/
theorem main_publishes_four_in_order_witness :
    (memPubSub.newClient projectID endpoint emptyPubSub).1 = none ∧
      (setupTopicAndSubscription memPubSub
        (memPubSub.newClient projectID endpoint emptyPubSub).2).val = none ∧
      (∀ k, k < 4 →
        (roundGet memPubSub (payloads.getD k "") (roundStart memPubSub emptyPubSub k)).1 =
          none) ∧
      (main memPubSub emptyPubSub).st =
        memPubSub.clientClose (memPubSub.sleep 5 (roundStart memPubSub emptyPubSub 4)) ∧
      publishedOf (main memPubSub emptyPubSub).out =
        [⟨bytesOf "Message 1: Hello from Pub/Sub emulator!",
          [("timestamp", "2024-01-01T00:00:00Z")]⟩,
         ⟨bytesOf "Message 2: This is message number 2",
          [("timestamp", "2024-01-01T00:00:00Z")]⟩,
         ⟨bytesOf "Message 3: Testing Pub/Sub functionality",
          [("timestamp", "2024-01-01T00:00:00Z")]⟩,
         ⟨bytesOf "Message 4: Final test message",
          [("timestamp", "2024-01-01T00:00:00Z")]⟩] ∧
      (main memPubSub emptyPubSub).st.published =
        publishedOf (main memPubSub emptyPubSub).out :=
  ⟨by decide, by decide, by decide,
   (main_publishes_four_in_order memPubSub emptyPubSub (by decide) (by decide)
      (by decide)).2.1,
   (main_publishes_four_in_order memPubSub emptyPubSub (by decide) (by decide)
      (by decide)).2.2.1,
   by decide⟩

theorem receiveCallback_plain (sdk : PubSubSDK σ) (msg : Message) (s : σ) :
    (receiveCallback sdk msg s).out.all Event.isPlain = true := by
  simp only [receiveCallback]
  split <;> rfl

theorem receiveLoop_plain (sdk : PubSubSDK σ) (fuel : Nat) :
    ∀ s : σ, (receiveLoop sdk fuel s).out.all Event.isPlain = true := by
  induction fuel with
  | zero => intro s; rfl
  | succ n ih =>
    intro s
    simp only [receiveLoop]
    split
    · rfl
    · simp only [List.all_append, Bool.and_eq_true]
      exact ⟨receiveCallback_plain sdk _ _, ih _⟩

/-- C2, refuted.  On a service whose first publish is not confirmed and whose
Receive returns an error: the Get of the first publish fails, and yet `main`
writes no fatal log, publishes all four messages and prints "Demo completed!";
the subscriber goroutine logs the Receive error and ends without a fatal log. -/
theorem publish_error_does_not_stop_main :
    Event.sdk (.resultGet 0 (some unavailable)) ∈ (main memPubSub firstPublishFailing).out ∧
      (main memPubSub firstPublishFailing).out.any Event.isFatal = false ∧
      (publishedOf (main memPubSub firstPublishFailing).out).map (fun m => stringOf m.data) =
        ["Message 1: Hello from Pub/Sub emulator!",
         "Message 2: This is message number 2",
         "Message 3: Testing Pub/Sub functionality",
         "Message 4: Final test message"] ∧
      Event.println "Demo completed!" ∈ (main memPubSub firstPublishFailing).out ∧
      (subscriberGoroutine memPubSub 1 firstPublishFailing).out =
        [.println "Starting message subscriber...",
         .sdk (.receiveReturn subscriptionID (some unavailable)),
         .logPrintf "Failed to subscribe: %v" [.err unavailable],
         .wgDone] := by
  decide

/-- C2, amended.  Once the client and the setup succeeded, no SDK error ends the
run: `main` goes through all four publish rounds whatever each Get returns,
writing "Failed to publish message i" with `log.Printf` for a round whose Get
failed, never writes a fatal log, and ends with "Demo completed!"; and when
Receive returns, the subscriber goroutine ends too, after logging the error with
`log.Printf` if there was one, without a fatal log. -/
theorem main_logs_publish_errors_and_carries_on (sdk : PubSubSDK σ) (s : σ)
    (hclient : (sdk.newClient projectID endpoint s).1 = none)
    (hsetup : (setupTopicAndSubscription sdk (sdk.newClient projectID endpoint s).2).val =
      none) :
    (∃ t1 t2 t3 t4 r1 r2 r3 r4 e1 e2 e3 e4,
      (main sdk s).out =
        [.sdk (.newClient projectID endpoint none), .enter "setupTopicAndSubscription"] ++
        (setupTopicAndSubscription sdk (sdk.newClient projectID endpoint s).2).out ++
        [.leave "setupTopicAndSubscription" none,
         .wgAdd 1, .spawn "subscribeMessages", .sleep 2] ++
        (publishRound 1 "Message 1: Hello from Pub/Sub emulator!" t1 r1 e1 ++
         publishRound 2 "Message 2: This is message number 2" t2 r2 e2 ++
         publishRound 3 "Message 3: Testing Pub/Sub functionality" t3 r3 e3 ++
         publishRound 4 "Message 4: Final test message" t4 r4 e4) ++
        [.sleep 5, .println "Demo completed!", .sdk .clientClose]) ∧
      (main sdk s).out.any Event.isFatal = false ∧
      (publishedOf (main sdk s).out).map (fun m => stringOf m.data) =
        ["Message 1: Hello from Pub/Sub emulator!",
         "Message 2: This is message number 2",
         "Message 3: Testing Pub/Sub functionality",
         "Message 4: Final test message"] ∧
      (∀ (fuel : Nat) (s0 : σ),
        (subscriberGoroutine sdk fuel s0).out.any Event.isFatal = false ∧
        ∀ err, (receiveLoop sdk fuel s0).val = some (some err) →
          (subscriberGoroutine sdk fuel s0).val = true ∧
          (subscriberGoroutine sdk fuel s0).out =
            [.println "Starting message subscriber..."] ++ (receiveLoop sdk fuel s0).out ++
            [.logPrintf "Failed to subscribe: %v" [.err err], .wgDone]) := by
  obtain ⟨t1, t2, t3, t4, r1, r2, r3, r4, e1, e2, e3, e4, h⟩ := main_rounds sdk s hclient hsetup
  have fs := not_fatal_of_plain _
    (setupTopicAndSubscription_plain sdk (sdk.newClient projectID endpoint s).2)
  refine ⟨⟨t1, t2, t3, t4, r1, r2, r3, r4, e1, e2, e3, e4, h⟩, ?_, ?_, ?_⟩
  · rw [h]
    cases e1 <;> cases e2 <;> cases e3 <;> cases e4 <;>
      simp [-List.any_eq_true, List.any_append, List.any_cons, fs, publishRound,
        publishReport, Event.isFatal]
  · rw [h]
    simp [publishedOf_append, publishedOf_setup, publishedOf, publishRound, stringOf, bytesOf,
      publishedOf_publishReport]
  · intro fuel s0
    have f0 := not_fatal_of_plain _ (receiveLoop_plain sdk fuel s0)
    refine ⟨?_, ?_⟩
    · simp only [subscriberGoroutine, subscribeMessages]
      split <;>
        simp [-List.any_eq_true, List.any_append, List.any_cons, f0, Event.isFatal]
    · intro err hv
      simp [subscriberGoroutine, subscribeMessages, hv]

/-- Witness of the amended C2: the service whose first publish is not
confirmed and whose Receive fails. -/
theorem main_logs_publish_errors_and_carries_on_witness :
    (memPubSub.newClient projectID endpoint firstPublishFailing).1 = none ∧
      (setupTopicAndSubscription memPubSub
        (memPubSub.newClient projectID endpoint firstPublishFailing).2).val = none ∧
      (main memPubSub firstPublishFailing).out.any isFailedGet = true ∧
      (main memPubSub firstPublishFailing).out.any Event.isFatal = false ∧
      (publishedOf (main memPubSub firstPublishFailing).out).map (fun m => stringOf m.data) =
        ["Message 1: Hello from Pub/Sub emulator!",
         "Message 2: This is message number 2",
         "Message 3: Testing Pub/Sub functionality",
         "Message 4: Final test message"] :=
  ⟨by decide, by decide, by decide,
   (main_logs_publish_errors_and_carries_on memPubSub firstPublishFailing
      (by decide) (by decide)).2.1,
   (main_logs_publish_errors_and_carries_on memPubSub firstPublishFailing
      (by decide) (by decide)).2.2.1⟩

theorem ackedOf_append (a b : List Ev) : ackedOf (a ++ b) = ackedOf a ++ ackedOf b := by
  induction a with
  | nil => rfl
  | cons e rest ih =>
    cases e with
    | sdk c => cases c <;> simp [ackedOf, ih]
    | _ => simp [ackedOf, ih]

theorem receiveCallback_out (sdk : PubSubSDK σ) (msg : Message) (s : σ) :
    (receiveCallback sdk msg s).out =
      [.printf "Received message: %s\n" [.str (stringOf msg.data)]] ++
      (if msg.attributes = [] then []
       else [.printf "  Attributes: %v\n" [.attrs msg.attributes]]) ++
      [.sdk (.ack msg)] := by
  cases h : msg.attributes <;> simp [receiveCallback, h]

/-- C9. The receive callback, on any message: it prints the payload, then the
attribute map (the whole map, unless the message has no attribute at all), and
then acknowledges the message, once, as its last action; it never calls Nack.
So every attribute of the message, a `timestamp` among them, is in what is
printed.  And in a running Receive the messages acknowledged are the messages
delivered, one Ack each, in order, with no Nack. -/
theorem receiveCallback_prints_and_acks_once (sdk : PubSubSDK σ) (msg : Message) (s : σ) :
    (receiveCallback sdk msg s).out =
        [.printf "Received message: %s\n" [.str (stringOf msg.data)]] ++
        (if msg.attributes = [] then []
         else [.printf "  Attributes: %v\n" [.attrs msg.attributes]]) ++
        [.sdk (.ack msg)] ∧
      (receiveCallback sdk msg s).out.countP isAck = 1 ∧
      (receiveCallback sdk msg s).out.any isNack = false ∧
      (receiveCallback sdk msg s).st = sdk.ack msg s ∧
      (∀ k v, (k, v) ∈ msg.attributes →
        Event.printf "  Attributes: %v\n" [.attrs msg.attributes] ∈
          (receiveCallback sdk msg s).out) ∧
      (∀ fuel s0, ackedOf (subscribeMessages sdk fuel s0).out = deliveredWithin sdk fuel s0 ∧
        (subscribeMessages sdk fuel s0).out.any isNack = false) := by
  refine ⟨receiveCallback_out sdk msg s, ?_, ?_, rfl, ?_, ?_⟩
  · rw [receiveCallback_out]
    by_cases h : msg.attributes = [] <;> simp [h, List.countP_cons, isAck]
  · rw [receiveCallback_out]
    by_cases h : msg.attributes = [] <;> simp [h, isNack]
  · intro k v hkv
    have hne : msg.attributes ≠ [] := List.ne_nil_of_mem hkv
    rw [receiveCallback_out]
    simp [hne]
  · intro fuel
    have key : ∀ s0, ackedOf (receiveLoop sdk fuel s0).out = deliveredWithin sdk fuel s0 ∧
        (receiveLoop sdk fuel s0).out.any isNack = false := by
      induction fuel with
      | zero => intro s0; exact ⟨rfl, rfl⟩
      | succ n ih =>
        intro s0
        cases hstep : (sdk.receiveStep subscriptionID s0).1 with
        | stop err => simp [receiveLoop, deliveredWithin, hstep, ackedOf, isNack]
        | deliver m =>
          obtain ⟨ih1, ih2⟩ := ih (sdk.ack m (sdk.receiveStep subscriptionID s0).2)
          have hst : (receiveCallback sdk m (sdk.receiveStep subscriptionID s0).2).st =
              sdk.ack m (sdk.receiveStep subscriptionID s0).2 := rfl
          constructor
          · simp only [receiveLoop, deliveredWithin, hstep, ackedOf_append, hst, ih1]
            rw [receiveCallback_out]
            by_cases h : m.attributes = [] <;> simp [h, ackedOf]
          · simp only [receiveLoop, hstep, List.any_append, hst, ih2, Bool.or_false]
            rw [receiveCallback_out]
            by_cases h : m.attributes = [] <;> simp [h, isNack]
    intro s0
    obtain ⟨k1, k2⟩ := key s0
    constructor
    · simp only [subscribeMessages, ackedOf_append, k1]
      simp [ackedOf]
    · simp only [subscribeMessages, List.any_append, k2]
      simp [isNack]

theorem ensureSubscription_creates_iff (sdk : PubSubSDK σ) (topic : Topic) (s : σ) :
    (ensureSubscription sdk topic s).out.any isCreateTopic = false ∧
      ((ensureSubscription sdk topic s).out.any isCreateSubscription = true ↔
        Event.sdk (.subscriptionExists subscriptionID (.ok false)) ∈
          (ensureSubscription sdk topic s).out) ∧
      (∀ t r, Event.sdk (.topicExists t r) ∉ (ensureSubscription sdk topic s).out) := by
  cases he : (sdk.subscriptionExists subscriptionID s).1 with
  | fail err => simp [ensureSubscription, he, isCreateTopic, isCreateSubscription]
  | ok b =>
    cases b with
    | true => simp [ensureSubscription, he, isCreateTopic, isCreateSubscription]
    | false =>
      cases hc : (sdk.createSubscription subscriptionID topic
          (sdk.subscriptionExists subscriptionID s).2).1 <;>
        simp [ensureSubscription, he, hc, isCreateTopic, isCreateSubscription]

/-- After a setup that returned nil on the in-memory service, the topic and the
subscription are there. -/
theorem memPubSub_setup_ok (m : MemPubSub)
    (h : (setupTopicAndSubscription memPubSub m).val = none) :
    topicName ∈ (setupTopicAndSubscription memPubSub m).st.topics ∧
      subscriptionID ∈ (setupTopicAndSubscription memPubSub m).st.subscriptions.map Prod.fst := by
  by_cases ht : topicName ∈ m.topics <;> by_cases hs : subscriptionID ∈ m.subscriptions.map Prod.fst <;>
    cases hf1 : m.createTopicFault <;> cases hf2 : m.createSubscriptionFault <;>
    simp_all [setupTopicAndSubscription, ensureSubscription, memPubSub, clientTopic]

/-- A setup on the in-memory service that finds both the topic and the
subscription creates nothing and changes nothing. -/
theorem memPubSub_setup_present (m : MemPubSub) (ht : topicName ∈ m.topics)
    (hs : subscriptionID ∈ m.subscriptions.map Prod.fst) :
    setupTopicAndSubscription memPubSub m =
      ⟨none,
       [.sdk (.topicExists (clientTopic topicName) (.ok true)),
        .printf "Topic '%s' already exists\n" [.str topicName],
        .sdk (.subscriptionExists subscriptionID (.ok true)),
        .printf "Subscription '%s' already exists\n" [.str subscriptionID]],
       m⟩ := by
  simp only [List.mem_map] at hs
  simp [setupTopicAndSubscription, ensureSubscription, memPubSub, clientTopic, ht, hs]

/-- C6. The in-memory service answers the two Exists calls truthfully and
without error; from any of its states in which a first
`setupTopicAndSubscription` returned nil, a second one calls neither
CreateTopic nor CreateSubscription, returns nil, and leaves the state, so both
sets, as the first left it.  And on any SDK whatever: CreateTopic is called
exactly when the topic Exists check returned false, CreateSubscription exactly
when the subscription Exists check was made and returned false. -/
theorem setupTopicAndSubscription_idempotent (sdk : PubSubSDK σ) (s : σ) (m : MemPubSub) :
    ((setupTopicAndSubscription memPubSub m).val = none →
        (setupTopicAndSubscription memPubSub
          (setupTopicAndSubscription memPubSub m).st).out.any isCreateTopic = false ∧
        (setupTopicAndSubscription memPubSub
          (setupTopicAndSubscription memPubSub m).st).out.any isCreateSubscription = false ∧
        (setupTopicAndSubscription memPubSub
          (setupTopicAndSubscription memPubSub m).st).val = none ∧
        (setupTopicAndSubscription memPubSub
          (setupTopicAndSubscription memPubSub m).st).st =
          (setupTopicAndSubscription memPubSub m).st) ∧
      (∀ (t : Topic) (sub : String) (m0 : MemPubSub),
        memPubSub.topicExists t m0 = (.ok (decide (t.name ∈ m0.topics)), m0) ∧
        memPubSub.subscriptionExists sub m0 =
          (.ok (decide (sub ∈ m0.subscriptions.map Prod.fst)), m0)) ∧
      ((setupTopicAndSubscription sdk s).out.any isCreateTopic = true ↔
        Event.sdk (.topicExists (clientTopic topicName) (.ok false)) ∈
          (setupTopicAndSubscription sdk s).out) ∧
      ((setupTopicAndSubscription sdk s).out.any isCreateTopic = true ↔
        (sdk.topicExists (clientTopic topicName) s).1 = .ok false) ∧
      ((setupTopicAndSubscription sdk s).out.any isCreateSubscription = true ↔
        Event.sdk (.subscriptionExists subscriptionID (.ok false)) ∈
          (setupTopicAndSubscription sdk s).out) := by
  refine ⟨?_, fun _ _ _ => ⟨rfl, rfl⟩, ?_⟩
  · intro h
    obtain ⟨ht, hs⟩ := memPubSub_setup_ok m h
    rw [memPubSub_setup_present _ ht hs]
    simp [isCreateTopic, isCreateSubscription]
  · cases he : (sdk.topicExists (clientTopic topicName) s).1 with
    | fail err =>
      simp [setupTopicAndSubscription, he, isCreateTopic, isCreateSubscription]
    | ok b =>
      cases b with
      | true =>
        obtain ⟨e1, e2, e3⟩ := ensureSubscription_creates_iff sdk (clientTopic topicName)
          (sdk.topicExists (clientTopic topicName) s).2
        simp [setupTopicAndSubscription, he, isCreateTopic, isCreateSubscription,
          -List.any_eq_true, List.any_append, List.any_cons, e1, e2, e3]
      | false =>
        cases hc : (sdk.createTopic topicName (sdk.topicExists (clientTopic topicName) s).2).1 with
        | fail err =>
          simp [setupTopicAndSubscription, he, hc, isCreateTopic, isCreateSubscription]
        | ok created =>
          obtain ⟨e1, e2, e3⟩ := ensureSubscription_creates_iff sdk created
            (sdk.createTopic topicName (sdk.topicExists (clientTopic topicName) s).2).2
          simp [setupTopicAndSubscription, he, hc, isCreateTopic, isCreateSubscription,
            -List.any_eq_true, List.any_append, List.any_cons, e1, e2, e3]

/-- A run of `subscribeMessages` on the service with two messages waiting: the
first is printed with its timestamp attribute, the second, which has no
attribute, with its payload alone; each is acknowledged; then Receive returns. -/
theorem subscribeMessages_two_waiting :
    (subscribeMessages memPubSub 3 twoWaiting).val = some none ∧
      (subscribeMessages memPubSub 3 twoWaiting).out =
        [.println "Starting message subscriber...",
         .printf "Received message: %s\n" [.str "hello"],
         .printf "  Attributes: %v\n" [.attrs [("timestamp", "2024-01-01T00:00:00Z")]],
         .sdk (.ack ⟨⟨"hello"⟩, [("timestamp", "2024-01-01T00:00:00Z")]⟩),
         .printf "Received message: %s\n" [.str "bare"],
         .sdk (.ack ⟨⟨"bare"⟩, []⟩),
         .sdk (.receiveReturn subscriptionID none)] := by
  decide

/-- Witness of C6: a fresh service, where the first setup creates both the
topic and the subscription. -/
theorem setupTopicAndSubscription_idempotent_witness :
    (setupTopicAndSubscription memPubSub emptyPubSub).val = none ∧
      (setupTopicAndSubscription memPubSub emptyPubSub).out.any isCreateTopic = true ∧
      (setupTopicAndSubscription memPubSub emptyPubSub).out.any isCreateSubscription = true ∧
      (setupTopicAndSubscription memPubSub
        (setupTopicAndSubscription memPubSub emptyPubSub).st).out.any isCreateTopic = false ∧
      (setupTopicAndSubscription memPubSub
        (setupTopicAndSubscription memPubSub emptyPubSub).st).out.any isCreateSubscription =
        false ∧
      (setupTopicAndSubscription memPubSub
        (setupTopicAndSubscription memPubSub emptyPubSub).st).val = none ∧
      (setupTopicAndSubscription memPubSub
        (setupTopicAndSubscription memPubSub emptyPubSub).st).st =
        (setupTopicAndSubscription memPubSub emptyPubSub).st :=
  ⟨by decide, by decide, by decide,
   (setupTopicAndSubscription_idempotent memPubSub emptyPubSub emptyPubSub).1 (by decide)⟩

end PubSubEmulator

end GcpEmulatorsPoc
